import Mathlib

/-!
# Dispatch loops of `Control/DCCHDispatch.cpp`

A shallow embedding of the idle-mode dispatcher for dedicated control
channels (`DCCHDispatchMM`, `DCCHDispatchRR`, `Control::DCCHDispatcher`) and of
the packet-channel dispatcher (`Control::PDCHDispatcher`).

The C++ loops are `while (1)` loops around blocking collaborators.  One pass of
a loop body is a function from the loop state and the outcomes the
collaborators give during that pass to the next loop state; the loop itself is
that function iterated over a stream of collaborator outcomes.  Every action
the loop performs on the outside world is appended to a trace kept in the
state, so that "what was sent, and in which order" is a statement about a list.

The namespace `OpenBTS` embeds three pieces of `apps/OpenBTS.cpp` in the same
style: `shutdownOpenbts`, the restart loop `forkLoop`, and the timeslot
bring-up of `main`.
-/

namespace Control

/-! ## Data model -/

/-- Values of `L3Message::PD()`.  Only the two enumerators the dispatcher names
are distinguished; every other protocol group is `otherPD`. -/
inductive L3PD
  | L3MobilityManagementPD
  | L3RadioResourcePD
  | otherPD (code : Nat)
  deriving DecidableEq, Repr

/-- Values of `L3MMMessage::MessageType`: the three enumerators that
`DCCHDispatchMM` names, and `otherMM` for every other message type. -/
inductive MMMessageType
  | LocationUpdatingRequest
  | IMSIDetachIndication
  | CMServiceRequest
  | otherMM (code : Nat)
  deriving DecidableEq, Repr

/-- Values of `L3RRMessage::MessageType`: the three enumerators that
`DCCHDispatchRR` names, and `otherRR` for every other message type. -/
inductive RRMessageType
  | PagingResponse
  | AssignmentComplete
  | GPRSSuspensionRequest
  | otherRR (code : Nat)
  deriving DecidableEq, Repr

/-- A decoded mobility-management message (`L3MMMessage`). -/
structure L3MMMessage where
  MTI : MMMessageType
  body : Nat
  deriving DecidableEq, Repr

/-- A decoded radio-resource message (`L3RRMessage`). -/
structure L3RRMessage where
  MTI : RRMessageType
  body : Nat
  deriving DecidableEq, Repr

/-- A decoded layer-3 message: the class hierarchy under `L3Message`. -/
inductive L3Message
  | MM (m : L3MMMessage)
  | RR (m : L3RRMessage)
  | other (pd : Nat) (mti : Nat) (body : Nat)
  deriving DecidableEq, Repr

/-- The virtual `PD()` of a message. -/
def L3Message.PD : L3Message → L3PD
  | .MM _ => .L3MobilityManagementPD
  | .RR _ => .L3RadioResourcePD
  | .other pd _ _ => .otherPD pd

/-- The cast `dynamic_cast<const L3MMMessage*>(message)`; `none` is the null
pointer. -/
def L3Message.asMM : L3Message → Option L3MMMessage
  | .MM m => some m
  | _ => none

/-- The cast `dynamic_cast<const L3RRMessage*>(message)`; `none` is the null
pointer. -/
def L3Message.asRR : L3Message → Option L3RRMessage
  | .RR m => some m
  | _ => none

/-- The dynamic class of a logical channel. -/
inductive ChannelClass
  | SDCCH
  | TCHFACCH
  | otherChannel (code : Nat)
  deriving DecidableEq, Repr

/-- A logical channel: its identity and its dynamic class. -/
structure LogicalChannel where
  ident : Nat
  cls : ChannelClass
  deriving DecidableEq, Repr

/-- The cast `dynamic_cast<SDCCHLogicalChannel*>(DCCH)`; `none` is the null
pointer. -/
def asSDCCH (DCCH : LogicalChannel) : Option LogicalChannel :=
  if DCCH.cls = ChannelClass.SDCCH then some DCCH else none

/-- The cast `dynamic_cast<TCHFACCHLogicalChannel*>(DCCH)`; `none` is the null
pointer. -/
def asTCHFACCH (DCCH : LogicalChannel) : Option LogicalChannel :=
  if DCCH.cls = ChannelClass.TCHFACCH then some DCCH else none

/-- A raw layer-3 frame, as captured in `UnexpectedMessage::mpFrame`. -/
structure L3Frame where
  payload : List Nat
  deriving DecidableEq, Repr

/-- The exception classes named by the handlers of `Control::DCCHDispatcher`.
Each carries the transaction id the recovery table associates with it;
`UnexpectedMessage` also carries `mpFrame` (`none` is the null pointer). -/
inductive Failure
  | ChannelReadTimeout (transactionID : Nat)
  | UnexpectedPrimitive (transactionID : Nat)
  | UnexpectedMessage (transactionID : Nat) (mpFrame : Option L3Frame)
  | UnsupportedMessage (transactionID : Nat)
  | Q931TimerExpired (transactionID : Nat)
  | SIPTimeout (transactionID : Nat)
  | SIPError (transactionID : Nat)
  deriving DecidableEq, Repr

/-- The transaction id of a failure (`except.transactionID()`). -/
def Failure.transactionID : Failure → Nat
  | .ChannelReadTimeout t => t
  | .UnexpectedPrimitive t => t
  | .UnexpectedMessage t _ => t
  | .UnsupportedMessage t => t
  | .Q931TimerExpired t => t
  | .SIPTimeout t => t
  | .SIPError t => t

/-- The captured frame of a failure, if it has one. -/
def Failure.mpFrame : Failure → Option L3Frame
  | .UnexpectedMessage _ fr => fr
  | _ => none

/-- What can leave a C++ call other than a normal return: one of the exception
classes a handler names, an exception of any other class, or a failed
`assert`. -/
inductive Signal
  | exc (f : Failure)
  | foreignException (code : Nat)
  | assertFailed
  deriving DecidableEq, Repr

/-- The transaction controllers the sub-dispatchers can call. -/
inductive Controller
  | LocationUpdatingController
  | IMSIDetachController
  | CMServiceResponder
  | PagingResponseHandler
  | AssignmentCompleteHandler
  deriving DecidableEq, Repr

/-- Channel primitives; the loop waits for `ESTABLISH`. -/
inductive Primitive
  | ESTABLISH
  | RELEASE
  deriving DecidableEq, Repr

/-- The actions of the dedicated-channel loop on the outside world. -/
inductive Event
  | waitForPrimitive (DCCH : LogicalChannel) (prim : Primitive)
  | getMessage (DCCH : LogicalChannel)
  | call (ctl : Controller) (req : L3Message) (chan : Option LogicalChannel)
  | deleteMessage (m : L3Message)
  | clearTransactionHistory (transactionID : Nat)
  | send (DCCH : LogicalChannel) (cause : Nat)
  | parseL3 (frame : L3Frame)
  | deleteFrame (frame : L3Frame)
  deriving DecidableEq, Repr

/-- The Transaction History Store: the ids that have an entry. -/
abbrev TransactionTable := List Nat

/-- Modelled from the spec: `clearTransactionHistory(unsigned)` is declared in
`ControlCommon.h` and defined outside the given sources.  The spec describes it
as the idempotent clear of the entry of one transaction id: afterwards the
store has no entry for the id, and clearing an absent id is a no-op. -/
def clearTransactionHistory (transactionID : Nat) (table : TransactionTable) :
    TransactionTable :=
  table.filter (fun t => t ≠ transactionID)

/-- What is fixed for a whole run: the layer-3 parser (`none` is a null
result) and the transaction id of a default-constructed exception, as in
`throw UnsupportedMessage()`. -/
structure Env where
  parseL3 : L3Frame → Option L3Message
  defaultTransactionID : Nat

/-- The outcomes the blocking collaborators give during one pass of the loop.
A controller may change the transaction table and then return or raise. -/
structure Collaborators where
  waitForPrimitive : LogicalChannel → Primitive → Except Signal Unit
  getMessage : LogicalChannel → Except Signal L3Message
  controller : Controller → L3Message → Option LogicalChannel → TransactionTable →
    Except Signal Unit × TransactionTable

/-- The state of `Control::DCCHDispatcher`: the local `message`, the shared
transaction table, and the trace of actions so far. -/
structure LoopState where
  message : Option L3Message
  table : TransactionTable
  trace : List Event
  deriving DecidableEq, Repr

/-- Append actions to the trace. -/
def LoopState.emit (s : LoopState) (es : List Event) : LoopState :=
  { s with trace := s.trace ++ es }

/-! ## The sub-dispatchers -/

/-- A call of a transaction controller with a request and a (possibly null)
channel. -/
def invoke (w : Collaborators) (ctl : Controller) (req : L3Message)
    (chan : Option LogicalChannel) (s : LoopState) : LoopState × Except Signal Unit :=
  let r := w.controller ctl req chan s.table
  ({ s with table := r.2, trace := s.trace ++ [Event.call ctl req chan] }, r.1)

/-- `DCCHDispatchMM(req, DCCH)`.  A null `req` fails `assert(req)`.  The request
is handed to the controller as it is (its class follows its message type); the
channel is handed over through the cast the call site applies. -/
def DCCHDispatchMM (env : Env) (w : Collaborators) (req : Option L3MMMessage)
    (DCCH : LogicalChannel) (s : LoopState) : LoopState × Except Signal Unit :=
  match req with
  | none => (s, .error .assertFailed)
  | some r =>
    match r.MTI with
    | .LocationUpdatingRequest =>
        invoke w .LocationUpdatingController (.MM r) (asSDCCH DCCH) s
    | .IMSIDetachIndication =>
        invoke w .IMSIDetachController (.MM r) (asSDCCH DCCH) s
    | .CMServiceRequest =>
        invoke w .CMServiceResponder (.MM r) (some DCCH) s
    | .otherMM _ =>
        (s, .error (.exc (.UnsupportedMessage env.defaultTransactionID)))

/-- `DCCHDispatchRR(req, DCCH)`.  A null `req` fails `assert(req)`.  The
`GPRSSuspensionRequest` case only logs. -/
def DCCHDispatchRR (env : Env) (w : Collaborators) (req : Option L3RRMessage)
    (DCCH : LogicalChannel) (s : LoopState) : LoopState × Except Signal Unit :=
  match req with
  | none => (s, .error .assertFailed)
  | some r =>
    match r.MTI with
    | .PagingResponse =>
        invoke w .PagingResponseHandler (.RR r) (some DCCH) s
    | .AssignmentComplete =>
        invoke w .AssignmentCompleteHandler (.RR r) (asTCHFACCH DCCH) s
    | .GPRSSuspensionRequest => (s, .ok ())
    | .otherRR _ =>
        (s, .error (.exc (.UnsupportedMessage env.defaultTransactionID)))

/-! ## The dedicated-channel loop -/

/-- The block `if (!message) { waitForPrimitive(DCCH,ESTABLISH); message =
getMessage(DCCH); }`, returning the message the switch then reads. -/
def acquire (w : Collaborators) (DCCH : LogicalChannel) (s : LoopState) :
    LoopState × Except Signal L3Message :=
  match s.message with
  | some m => (s, .ok m)
  | none =>
    let s1 := s.emit [Event.waitForPrimitive DCCH Primitive.ESTABLISH]
    match w.waitForPrimitive DCCH Primitive.ESTABLISH with
    | .error e => (s1, .error e)
    | .ok _ =>
      let s2 := s1.emit [Event.getMessage DCCH]
      match w.getMessage DCCH with
      | .error e => (s2, .error e)
      | .ok m => ({ s2 with message := some m }, .ok m)

/-- The statement `switch (message->PD()) { ... }`. -/
def dispatchSwitch (env : Env) (w : Collaborators) (DCCH : LogicalChannel)
    (m : L3Message) (s : LoopState) : LoopState × Except Signal Unit :=
  match m.PD with
  | .L3MobilityManagementPD => DCCHDispatchMM env w m.asMM DCCH s
  | .L3RadioResourcePD => DCCHDispatchRR env w m.asRR DCCH s
  | .otherPD _ =>
      ({ s with message := none, trace := s.trace ++ [Event.deleteMessage m] },
        .error (.exc (.UnsupportedMessage env.defaultTransactionID)))

/-- The two statements after the switch: `delete message; message = NULL;`. -/
def releaseMessage (m : L3Message) (s : LoopState) : LoopState :=
  { s with message := none, trace := s.trace ++ [Event.deleteMessage m] }

/-- The `try` block of one pass.  Assignments made before an exception is
raised stay in the returned state. -/
def tryBlock (env : Env) (w : Collaborators) (DCCH : LogicalChannel) (s : LoopState) :
    LoopState × Except Signal Unit :=
  match acquire w DCCH s with
  | (s1, .error e) => (s1, .error e)
  | (s1, .ok m) =>
    match dispatchSwitch env w DCCH m s1 with
    | (s2, .error e) => (s2, .error e)
    | (s2, .ok _) => (releaseMessage m s2, .ok ())

/-- The statement `clearTransactionHistory(except.transactionID());`. -/
def clearHistory (transactionID : Nat) (s : LoopState) : LoopState :=
  { s with table := clearTransactionHistory transactionID s.table,
           trace := s.trace ++ [Event.clearTransactionHistory transactionID] }

/-- The statement `DCCH->send(L3ChannelRelease(cause));`. -/
def sendRelease (DCCH : LogicalChannel) (cause : Nat) (s : LoopState) : LoopState :=
  s.emit [Event.send DCCH cause]

/-- The seven `catch` handlers.  Five start with
`clearTransactionHistory(except.transactionID())`; the two for the SIP
exceptions do not.  All send one `L3ChannelRelease`, except the
`UnexpectedMessage` handler when `except.mpFrame` is set: it re-parses the
frame into `message` and deletes the frame. -/
def handler (env : Env) (DCCH : LogicalChannel) (f : Failure) (s : LoopState) :
    LoopState :=
  match f with
  | .ChannelReadTimeout t => sendRelease DCCH 0x03 (clearHistory t s)
  | .UnexpectedPrimitive t => sendRelease DCCH 0x62 (clearHistory t s)
  | .UnexpectedMessage t (some frame) =>
      let s1 := clearHistory t s
      { s1 with message := env.parseL3 frame,
                trace := s1.trace ++ [Event.parseL3 frame, Event.deleteFrame frame] }
  | .UnexpectedMessage t none => sendRelease DCCH 0x62 (clearHistory t s)
  | .UnsupportedMessage t => sendRelease DCCH 0x61 (clearHistory t s)
  | .Q931TimerExpired t => sendRelease DCCH 0x03 (clearHistory t s)
  | .SIPTimeout _ => sendRelease DCCH 0x03 s
  | .SIPError _ => sendRelease DCCH 0x01 s

/-- One pass of the body of `while (1)`: the `try` block, and on an exception
the matching handler.  A signal no handler names leaves the function. -/
def DCCHDispatcherPass (env : Env) (w : Collaborators) (DCCH : LogicalChannel)
    (s : LoopState) : Except Signal LoopState :=
  match tryBlock env w DCCH s with
  | (s1, .ok _) => .ok s1
  | (s1, .error (.exc f)) => .ok (handler env DCCH f s1)
  | (_, .error e) => .error e

/-- The state in which `Control::DCCHDispatcher` enters its loop:
`message = NULL`. -/
def LoopState.start (table : TransactionTable) : LoopState :=
  { message := none, table := table, trace := [] }

/-- The passes of `Control::DCCHDispatcher(DCCH)` made against a finite list of
collaborator outcomes, one element per pass of `while (1)`.  A signal that
leaves a pass leaves the function. -/
def DCCHDispatcher (env : Env) (DCCH : LogicalChannel) :
    List Collaborators → LoopState → Except Signal LoopState
  | [], s => .ok s
  | w :: ws, s =>
    match DCCHDispatcherPass env w DCCH s with
    | .ok s1 => DCCHDispatcher env DCCH ws s1
    | .error e => .error e

/-- The releases in a trace: channel and cause of every `send`. -/
def releases : List Event → List (LogicalChannel × Nat)
  | [] => []
  | Event.send ch c :: es => (ch, c) :: releases es
  | _ :: es => releases es

/-- The controller calls in a trace. -/
def calls : List Event → List (Controller × L3Message × Option LogicalChannel)
  | [] => []
  | Event.call ctl req chan :: es => (ctl, req, chan) :: calls es
  | _ :: es => calls es

/-- The messages freed in a trace: the operand of every `delete message`. -/
def freed : List Event → List L3Message
  | [] => []
  | Event.deleteMessage m :: es => m :: freed es
  | _ :: es => freed es

/-- A trace whose releases all go to `DCCH` with one of the four causes. -/
def AllowedReleases (DCCH : LogicalChannel) (tr : List Event) : Prop :=
  ∀ p ∈ releases tr, p.1 = DCCH ∧ (p.2 = 0x01 ∨ p.2 = 0x03 ∨ p.2 = 0x61 ∨ p.2 = 0x62)

/-- Collaborators that raise nothing but the exception classes the handlers
name: no exception of another class and no failed assertion comes out of
them. -/
def Collaborators.raisesOnlyFailures (w : Collaborators) : Prop :=
  (∀ ch p e, w.waitForPrimitive ch p = .error e → ∃ f, e = Signal.exc f) ∧
  (∀ ch e, w.getMessage ch = .error e → ∃ f, e = Signal.exc f) ∧
  (∀ ctl req chan tbl e, (w.controller ctl req chan tbl).1 = .error e → ∃ f, e = Signal.exc f)

/-! ## The packet-channel loop -/

/-- Values of `RLCMACFrame::payloadType()`. -/
inductive RLCMACPayloadType
  | RLCMACDataBlockType
  | RLCMACControlBlockType1
  | RLCMACControlBlockType2
  | otherPayload (code : Nat)
  deriving DecidableEq, Repr

/-- A raw RLC/MAC frame with its payload-type tag. -/
structure RLCMACFrame where
  payloadType : RLCMACPayloadType
  bits : List Nat
  deriving DecidableEq, Repr

/-- The fields of an `RLCMACDataBlock` the loop reads. -/
structure RLCMACDataBlock where
  CV : Nat
  TFI : Nat
  TLLI : Nat
  deriving DecidableEq, Repr

/-- The object `RLCMACControlBlock(TFI, TLLI)`. -/
structure RLCMACControlBlock where
  TFI : Nat
  TLLI : Nat
  deriving DecidableEq, Repr

/-- A parsed block: a data block, or a block of another class. -/
inductive RLCMACBlock
  | data (b : RLCMACDataBlock)
  | notData (code : Nat)
  deriving DecidableEq, Repr

/-- The RLC/MAC codec, defined outside the given sources: `parseRLCMAC`
(`none` is a null result) and `RLCMACControlBlock::write` into a fresh
frame. -/
structure Codec where
  parseRLCMAC : RLCMACFrame → Option RLCMACBlock
  write : RLCMACControlBlock → RLCMACFrame

/-- The actions of the packet-channel loop on the outside world. -/
inductive PDCHEvent
  | recvPDCH (PDCH : LogicalChannel)
  | parseRLCMAC (frame : RLCMACFrame)
  | sendRLCMAC (PDCH : LogicalChannel) (frame : RLCMACFrame)
  | deleteControlBlock (b : RLCMACControlBlock)
  | deleteBlock (b : RLCMACBlock)
  | deleteFrame (frame : RLCMACFrame)
  deriving DecidableEq, Repr

/-- One pass of the body of `while (1)` in `Control::PDCHDispatcher`, for the
frame `recvPDCH()` returned (`none` is the null pointer).  The result is the
extended trace; `none` stands for undefined behaviour (a null block, or a block
that is not the data block the unchecked cast assumes). -/
def PDCHDispatcherPass (codec : Codec) (PDCH : LogicalChannel)
    (received : Option RLCMACFrame) (trace : List PDCHEvent) : Option (List PDCHEvent) :=
  let t0 := trace ++ [PDCHEvent.recvPDCH PDCH]
  match received with
  | none => some t0
  | some frame =>
    match frame.payloadType with
    | .RLCMACDataBlockType =>
      let t1 := t0 ++ [PDCHEvent.parseRLCMAC frame]
      match codec.parseRLCMAC frame with
      | some (.data block) =>
        if block.CV = 0 then
          let ctrlblock : RLCMACControlBlock := { TFI := block.TFI, TLLI := block.TLLI }
          let frameCtrl := codec.write ctrlblock
          some (t1 ++ [PDCHEvent.sendRLCMAC PDCH frameCtrl,
                       PDCHEvent.deleteControlBlock ctrlblock,
                       PDCHEvent.deleteBlock (.data block),
                       PDCHEvent.deleteFrame frame])
        else
          some (t1 ++ [PDCHEvent.deleteBlock (.data block), PDCHEvent.deleteFrame frame])
      | _ => none
    | _ => some (t0 ++ [PDCHEvent.deleteFrame frame])

/-- The passes of `Control::PDCHDispatcher(PDCH)` over a finite list of results
of `recvPDCH()`, one element per pass. -/
def PDCHDispatcher (codec : Codec) (PDCH : LogicalChannel) :
    List (Option RLCMACFrame) → List PDCHEvent → Option (List PDCHEvent)
  | [], tr => some tr
  | r :: rs, tr =>
    match PDCHDispatcherPass codec PDCH r tr with
    | some tr1 => PDCHDispatcher codec PDCH rs tr1
    | none => none

/-- The frames transmitted in a trace of the packet-channel loop. -/
def transmitted : List PDCHEvent → List (LogicalChannel × RLCMACFrame)
  | [] => []
  | PDCHEvent.sendRLCMAC ch fr :: es => (ch, fr) :: transmitted es
  | _ :: es => transmitted es

/-- The frames handed to `parseRLCMAC` in a trace of the packet-channel loop. -/
def decoded : List PDCHEvent → List RLCMACFrame
  | [] => []
  | PDCHEvent.parseRLCMAC fr :: es => fr :: decoded es
  | _ :: es => decoded es

/-! ## The routing table in the words of the specification -/

/-- The controller the specification assigns to a message, by protocol
discriminator and message type; `none` for a message it assigns none to. -/
def specifiedController : L3Message → Option Controller
  | .MM r =>
    if r.MTI = .LocationUpdatingRequest then some .LocationUpdatingController
    else if r.MTI = .IMSIDetachIndication then some .IMSIDetachController
    else if r.MTI = .CMServiceRequest then some .CMServiceResponder
    else none
  | .RR r =>
    if r.MTI = .PagingResponse then some .PagingResponseHandler
    else if r.MTI = .AssignmentComplete then some .AssignmentCompleteHandler
    else none
  | .other _ _ _ => none

/-- The channel capability the specification requires for a controller: a
dedicated-signalling channel for location updating and IMSI detach, a traffic
channel for assignment complete, any channel otherwise.  A channel that does
not have the capability narrows to the null pointer. -/
def specifiedChannel (ctl : Controller) (c : LogicalChannel) : Option LogicalChannel :=
  match ctl with
  | .LocationUpdatingController => if c.cls = .SDCCH then some c else none
  | .IMSIDetachController => if c.cls = .SDCCH then some c else none
  | .AssignmentCompleteHandler => if c.cls = .TCHFACCH then some c else none
  | .CMServiceResponder => some c
  | .PagingResponseHandler => some c

/-! ## Concrete inputs -/

/-- A dedicated signalling channel. -/
def sdcch0 : LogicalChannel := { ident := 0, cls := ChannelClass.SDCCH }

/-- A traffic channel. -/
def tch1 : LogicalChannel := { ident := 1, cls := ChannelClass.TCHFACCH }

/-- A parser that decodes nothing, with default transaction id 0. -/
def env0 : Env := { parseL3 := fun _ => none, defaultTransactionID := 0 }

/-- A parser that decodes every frame to a GPRS suspension request. -/
def env1 : Env :=
  { parseL3 := fun _ => some (.RR { MTI := .GPRSSuspensionRequest, body := 12 }),
    defaultTransactionID := 0 }

/-- A location-updating request. -/
def lurMessage : L3Message := .MM { MTI := .LocationUpdatingRequest, body := 11 }

/-- A GPRS suspension request. -/
def suspensionMessage : L3Message := .RR { MTI := .GPRSSuspensionRequest, body := 12 }

/-- A mobility-management message of a type the sub-dispatcher does not
name. -/
def strangeMessage : L3Message := .MM { MTI := .otherMM 99, body := 13 }

/-- Collaborators of a pass in which ESTABLISH arrives, `getMessage` yields
`m`, and the controller raises `out` (or returns), leaving the table alone. -/
def deliver (m : L3Message) (out : Except Signal Unit) : Collaborators :=
  { waitForPrimitive := fun _ _ => .ok ()
    getMessage := fun _ => .ok m
    controller := fun _ _ _ tbl => (out, tbl) }

/-- Collaborators of a pass in which the wait for ESTABLISH raises `f`. -/
def waitRaises (f : Failure) : Collaborators :=
  { waitForPrimitive := fun _ _ => .error (.exc f)
    getMessage := fun _ => .ok lurMessage
    controller := fun _ _ _ tbl => (.ok (), tbl) }

/-- A packet data channel. -/
def pdtch0 : LogicalChannel := { ident := 7, cls := ChannelClass.otherChannel 0 }

/-- A codec whose frames spell out the block fields: a data frame holds
`[CV, TFI, TLLI]`, a control frame holds `[TFI, TLLI]`. -/
def codec0 : Codec :=
  { parseRLCMAC := fun fr =>
      match fr.bits with
      | [cv, tfi, tlli] => some (.data { CV := cv, TFI := tfi, TLLI := tlli })
      | _ => none
    write := fun b =>
      { payloadType := .RLCMACControlBlockType1, bits := [b.TFI, b.TLLI] } }

/-- A data frame with countdown value 0, TFI 5 and TLLI 0x12345678. -/
def finalDataFrame : RLCMACFrame :=
  { payloadType := .RLCMACDataBlockType, bits := [0, 5, 0x12345678] }

/-- A control frame. -/
def controlFrame : RLCMACFrame :=
  { payloadType := .RLCMACControlBlockType1, bits := [1, 2] }

end Control

namespace OpenBTS

/-! ## Process control in `apps/OpenBTS.cpp` -/

/-- The arguments of one call of `kill`, in the order of its prototype
`int kill(pid_t pid, int sig)`. -/
structure KillCall where
  pid : Int
  sig : Int
  deriving DecidableEq, Repr

/-- `shutdownOpenbts()`, whose body is the one statement
`kill(SIGTERM, getpid());`.  The value of the macro `SIGTERM` and the result of
`getpid()` are parameters; the result is the list of `kill` calls made. -/
def shutdownOpenbts (SIGTERM : Int) (getpid : Int) : List KillCall :=
  [{ pid := SIGTERM, sig := getpid }]

/-- The values `sigwait` can store in `signum`: the four members of
`chldSignalSet`, and any other number. -/
inductive Signum
  | SIGCHLD
  | SIGTERM
  | SIGINT
  | SIGKILL
  | otherSignal (n : Nat)
  deriving DecidableEq, Repr

/-- The case labels `SIGTERM`, `SIGINT`, `SIGKILL` of the switch in
`forkLoop`. -/
def Signum.isForwarded : Signum → Bool
  | .SIGTERM => true
  | .SIGINT => true
  | .SIGKILL => true
  | _ => false

/-- The two exit statuses. -/
inductive ExitStatus
  | EXIT_SUCCESS
  | EXIT_FAILURE
  deriving DecidableEq, Repr

/-- The first argument of `sigprocmask`. -/
inductive MaskHow
  | SIG_BLOCK
  | SIG_UNBLOCK
  deriving DecidableEq, Repr

/-- The system calls of `forkLoop` that act on processes. -/
inductive ProcEvent
  | sigprocmask (how : MaskHow)
  | fork (result : Int)
  | kill (pid : Int) (signum : Signum)
  deriving DecidableEq, Repr

/-- How a run of `forkLoop` ends: the function returns, the process leaves
through `exit`, or the loop is still blocked in `fork` or `sigwait` when the
given results are used up. -/
inductive LoopEnd
  | returned (code : ExitStatus)
  | exited (code : ExitStatus)
  | blocked
  deriving DecidableEq, Repr

/-- How the inner loop `while (signum != SIGCHLD)` ends: through
`exit(EXIT_SUCCESS)`, by leaving the loop on a SIGCHLD (with the signals not
yet consumed and the value of `shouldExit`), or still blocked in `sigwait`. -/
inductive WaitEnd
  | exited (trace : List ProcEvent)
  | childDied (rest : List Signum) (shouldExit : Bool) (trace : List ProcEvent)
  | blocked (trace : List ProcEvent)
  deriving DecidableEq, Repr

/-- The inner loop of `forkLoop` in the parent of child `pid`: each element of
the list is the signal one call of `sigwait` stores in `signum`. -/
def waitChild (pid : Int) : List Signum → Bool → List ProcEvent → WaitEnd
  | [], _, tr => .blocked tr
  | signum :: rest, shouldExit, tr =>
    match signum with
    | .SIGCHLD => if shouldExit then .exited tr else .childDied rest shouldExit tr
    | .SIGTERM => waitChild pid rest true (tr ++ [ProcEvent.kill pid .SIGTERM])
    | .SIGINT => waitChild pid rest true (tr ++ [ProcEvent.kill pid .SIGINT])
    | .SIGKILL => waitChild pid rest true (tr ++ [ProcEvent.kill pid .SIGKILL])
    | .otherSignal _ => waitChild pid rest shouldExit tr

/-- The outer loop `while (1)` of `forkLoop`: each element of the first list is
the result of one call of `fork`. -/
def forkLoopFrom : List Int → List Signum → Bool → List ProcEvent →
    LoopEnd × List ProcEvent
  | [], _, _, tr => (.blocked, tr)
  | pid :: forks, sigs, shouldExit, tr =>
    let tr1 := tr ++ [ProcEvent.fork pid]
    if pid < 0 then (.returned .EXIT_FAILURE, tr1)
    else if pid > 0 then
      match waitChild pid sigs shouldExit tr1 with
      | .exited tr2 => (.exited .EXIT_SUCCESS, tr2)
      | .childDied rest shouldExit2 tr2 => forkLoopFrom forks rest shouldExit2 tr2
      | .blocked tr2 => (.blocked, tr2)
    else (.returned .EXIT_SUCCESS, tr1 ++ [ProcEvent.sigprocmask .SIG_UNBLOCK])

/-- `forkLoop()`, run against the results of its calls of `fork` and the
signals its calls of `sigwait` return: `shouldExit` starts false and the four
signals are blocked first. -/
def forkLoop (forks : List Int) (sigs : List Signum) : LoopEnd × List ProcEvent :=
  forkLoopFrom forks sigs false [ProcEvent.sigprocmask .SIG_BLOCK]

/-- The results of `fork` in a trace. -/
def forksIn : List ProcEvent → List Int
  | [] => []
  | ProcEvent.fork r :: es => r :: forksIn es
  | _ :: es => forksIn es

/-- The forwarded signals in a trace. -/
def killsIn : List ProcEvent → List (Int × Signum)
  | [] => []
  | ProcEvent.kill pid sg :: es => (pid, sg) :: killsIn es
  | _ :: es => killsIn es

/-! ## Timeslot bring-up in `main` -/

/-- The channel combinations `main` creates on the timeslots after C0T0. -/
inductive Combination
  | Combination0
  | CombinationI
  | CombinationVII
  deriving DecidableEq, Repr

/-- One call `gBTS.createCombinationX(gTRX, sCount/8, sCount)`: which
combination, the transceiver index and the timeslot number passed. -/
structure SlotCall where
  combination : Combination
  trx : Nat
  timeslot : Nat
  deriving DecidableEq, Repr

/-- The statements `if (halfDuplex) sCount++; sCount++;` on the `unsigned`
counter. -/
def advance (halfDuplex : Bool) (sCount : Nat) : Nat :=
  let s1 := if halfDuplex then (sCount + 1) % 4294967296 else sCount
  (s1 + 1) % 4294967296

/-- A loop `for (int i=0; i<n; i++) { gBTS.createCombinationX(gTRX,sCount/8,
sCount); if (halfDuplex) sCount++; sCount++; }` with `n` passes left. -/
def createSlots (c : Combination) (halfDuplex : Bool) :
    Nat → Nat → List SlotCall → Nat × List SlotCall
  | 0, sCount, made => (sCount, made)
  | n + 1, sCount, made =>
    createSlots c halfDuplex n (advance halfDuplex sCount)
      (made ++ [{ combination := c, trx := sCount / 8, timeslot := sCount }])

/-- The loop `while (sCount<8) { gBTS.createCombination0(gTRX,sCount/8,sCount);
if (halfDuplex) sCount++; sCount++; }`. -/
def fillIdle (halfDuplex : Bool) (sCount : Nat) (made : List SlotCall) :
    Nat × List SlotCall :=
  if h : sCount < 8 then
    fillIdle halfDuplex (advance halfDuplex sCount)
      (made ++ [{ combination := .Combination0, trx := sCount / 8, timeslot := sCount }])
  else (sCount, made)
termination_by 8 - sCount
decreasing_by
  simp only [advance]
  split <;> omega

/-- The timeslot bring-up of `main`: `sCount` starts at 1 (one more in
half-duplex mode), then the C-VII loop, the C-I loop and the idle fill run in
this order.  The values of `GSM.NumC7s` and `GSM.NumC1s` are parameters; a loop
whose bound is not positive makes no pass.  The result is the final `sCount`
and the calls made. -/
def slotBringUp (halfDuplex : Bool) (numC7s numC1s : Int) : Nat × List SlotCall :=
  let s0 := if halfDuplex then (1 + 1) % 4294967296 else 1
  let r7 := createSlots .CombinationVII halfDuplex numC7s.toNat s0 []
  let r1 := createSlots .CombinationI halfDuplex numC1s.toNat r7.1 r7.2
  fillIdle halfDuplex r1.1 r1.2

end OpenBTS

namespace Control

/-! ## Trace lemmas -/

theorem releases_append (a b : List Event) :
    releases (a ++ b) = releases a ++ releases b := by
  induction a with
  | nil => rfl
  | cons e es ih => cases e <;> simp [releases, ih]

theorem calls_append (a b : List Event) :
    calls (a ++ b) = calls a ++ calls b := by
  induction a with
  | nil => rfl
  | cons e es ih => cases e <;> simp [calls, ih]

theorem invoke_releases (w : Collaborators) (ctl : Controller) (req : L3Message)
    (chan : Option LogicalChannel) (s : LoopState) :
    releases (invoke w ctl req chan s).1.trace = releases s.trace := by
  simp [invoke, releases_append, releases]

theorem DCCHDispatchMM_releases (env : Env) (w : Collaborators) (req : Option L3MMMessage)
    (DCCH : LogicalChannel) (s : LoopState) :
    releases (DCCHDispatchMM env w req DCCH s).1.trace = releases s.trace := by
  unfold DCCHDispatchMM
  split
  · rfl
  · split <;> simp [invoke_releases]

theorem DCCHDispatchRR_releases (env : Env) (w : Collaborators) (req : Option L3RRMessage)
    (DCCH : LogicalChannel) (s : LoopState) :
    releases (DCCHDispatchRR env w req DCCH s).1.trace = releases s.trace := by
  unfold DCCHDispatchRR
  split
  · rfl
  · split <;> simp [invoke_releases]

theorem dispatchSwitch_releases (env : Env) (w : Collaborators) (DCCH : LogicalChannel)
    (m : L3Message) (s : LoopState) :
    releases (dispatchSwitch env w DCCH m s).1.trace = releases s.trace := by
  unfold dispatchSwitch
  split
  · exact DCCHDispatchMM_releases env w _ DCCH s
  · exact DCCHDispatchRR_releases env w _ DCCH s
  · simp [releases_append, releases]

theorem acquire_releases (w : Collaborators) (DCCH : LogicalChannel) (s : LoopState) :
    releases (acquire w DCCH s).1.trace = releases s.trace := by
  unfold acquire
  split
  · rfl
  · simp only []
    split
    · simp [LoopState.emit, releases_append, releases]
    · split <;> simp [LoopState.emit, releases_append, releases]

theorem tryBlock_releases (env : Env) (w : Collaborators) (DCCH : LogicalChannel)
    (s : LoopState) :
    releases (tryBlock env w DCCH s).1.trace = releases s.trace := by
  unfold tryBlock
  split
  · next s1 e h =>
    have := acquire_releases w DCCH s
    rw [h] at this
    exact this
  · next s1 m h =>
    have h1 := acquire_releases w DCCH s
    rw [h] at h1
    have h2 := dispatchSwitch_releases env w DCCH m s1
    split
    · next s2 e h3 =>
      rw [h3] at h2
      simpa [h1] using h2
    · next s2 u h3 =>
      rw [h3] at h2
      simp at h2 h1
      simp [releaseMessage, releases_append, releases, h2, h1]

theorem handler_allowed (env : Env) (DCCH : LogicalChannel) (f : Failure) (s : LoopState)
    (h : AllowedReleases DCCH s.trace) : AllowedReleases DCCH (handler env DCCH f s).trace := by
  intro p hp
  unfold handler at hp
  split at hp <;>
    simp [sendRelease, clearHistory, LoopState.emit, releases_append, releases] at hp <;>
    first
      | exact h p hp
      | (rcases hp with hp | hp
         · exact h p hp
         · subst hp; simp)

theorem handler_release_of_no_frame (env : Env) (DCCH : LogicalChannel) (f : Failure)
    (s : LoopState) (hf : f.mpFrame = none) :
    ∃ c, releases (handler env DCCH f s).trace = releases s.trace ++ [(DCCH, c)] ∧
      (c = 0x01 ∨ c = 0x03 ∨ c = 0x61 ∨ c = 0x62) := by
  cases f with
  | ChannelReadTimeout t =>
    exact ⟨0x03, by simp [handler, sendRelease, clearHistory, LoopState.emit, releases_append,
      releases], by simp⟩
  | UnexpectedPrimitive t =>
    exact ⟨0x62, by simp [handler, sendRelease, clearHistory, LoopState.emit, releases_append,
      releases], by simp⟩
  | UnexpectedMessage t fr =>
    simp only [Failure.mpFrame] at hf
    subst hf
    exact ⟨0x62, by simp [handler, sendRelease, clearHistory, LoopState.emit, releases_append,
      releases], by simp⟩
  | UnsupportedMessage t =>
    exact ⟨0x61, by simp [handler, sendRelease, clearHistory, LoopState.emit, releases_append,
      releases], by simp⟩
  | Q931TimerExpired t =>
    exact ⟨0x03, by simp [handler, sendRelease, clearHistory, LoopState.emit, releases_append,
      releases], by simp⟩
  | SIPTimeout t =>
    exact ⟨0x03, by simp [handler, sendRelease, LoopState.emit, releases_append, releases],
      by simp⟩
  | SIPError t =>
    exact ⟨0x01, by simp [handler, sendRelease, LoopState.emit, releases_append, releases],
      by simp⟩

theorem DCCHDispatcherPass_allowed (env : Env) (w : Collaborators) (DCCH : LogicalChannel)
    (s s' : LoopState) (h : AllowedReleases DCCH s.trace)
    (hs : DCCHDispatcherPass env w DCCH s = .ok s') : AllowedReleases DCCH s'.trace := by
  have ht := tryBlock_releases env w DCCH s
  unfold DCCHDispatcherPass at hs
  split at hs
  · next s1 u h1 =>
    rw [h1] at ht
    cases hs
    intro p hp
    exact h p (by simpa [ht] using hp)
  · next s1 f h1 =>
    rw [h1] at ht
    cases hs
    apply handler_allowed
    intro p hp
    exact h p (by simpa [ht] using hp)
  · cases hs

theorem DCCHDispatcher_allowed (env : Env) (DCCH : LogicalChannel)
    (ws : List Collaborators) :
    ∀ (s s' : LoopState), AllowedReleases DCCH s.trace →
      DCCHDispatcher env DCCH ws s = .ok s' → AllowedReleases DCCH s'.trace := by
  induction ws with
  | nil =>
    intro s s' h hs
    simp [DCCHDispatcher] at hs
    cases hs
    exact h
  | cons w ws ih =>
    intro s s' h hs
    simp only [DCCHDispatcher] at hs
    split at hs
    · next s1 h1 =>
      exact ih s1 s' (DCCHDispatcherPass_allowed env w DCCH s s1 h h1) hs
    · cases hs

theorem allowed_start (DCCH : LogicalChannel) (table : TransactionTable) :
    AllowedReleases DCCH (LoopState.start table).trace := by
  intro p hp
  simp [LoopState.start, releases] at hp

theorem transmitted_append (a b : List PDCHEvent) :
    transmitted (a ++ b) = transmitted a ++ transmitted b := by
  induction a with
  | nil => rfl
  | cons e es ih => cases e <;> simp [transmitted, ih]

theorem decoded_append (a b : List PDCHEvent) :
    decoded (a ++ b) = decoded a ++ decoded b := by
  induction a with
  | nil => rfl
  | cons e es ih => cases e <;> simp [decoded, ih]

theorem invoke_error (w : Collaborators) (hw : w.raisesOnlyFailures) (ctl : Controller)
    (req : L3Message) (chan : Option LogicalChannel) (s s1 : LoopState) (e : Signal)
    (h : invoke w ctl req chan s = (s1, .error e)) : ∃ f, e = Signal.exc f := by
  simp only [invoke, Prod.mk.injEq] at h
  exact hw.2.2 ctl req chan s.table e h.2

theorem dispatchSwitch_error (env : Env) (w : Collaborators) (hw : w.raisesOnlyFailures)
    (DCCH : LogicalChannel) (m : L3Message) (s s1 : LoopState) (e : Signal)
    (h : dispatchSwitch env w DCCH m s = (s1, .error e)) : ∃ f, e = Signal.exc f := by
  cases m with
  | MM r =>
    obtain ⟨mti, body⟩ := r
    cases mti <;>
      simp only [dispatchSwitch, L3Message.PD, L3Message.asMM, DCCHDispatchMM] at h
    · exact invoke_error w hw _ _ _ s s1 e h
    · exact invoke_error w hw _ _ _ s s1 e h
    · exact invoke_error w hw _ _ _ s s1 e h
    · simp only [Prod.mk.injEq, Except.error.injEq] at h
      exact ⟨_, h.2.symm⟩
  | RR r =>
    obtain ⟨mti, body⟩ := r
    cases mti <;>
      simp only [dispatchSwitch, L3Message.PD, L3Message.asRR, DCCHDispatchRR] at h
    · exact invoke_error w hw _ _ _ s s1 e h
    · exact invoke_error w hw _ _ _ s s1 e h
    · simp at h
    · simp only [Prod.mk.injEq, Except.error.injEq] at h
      exact ⟨_, h.2.symm⟩
  | other pd mti body =>
    simp only [dispatchSwitch, L3Message.PD, Prod.mk.injEq, Except.error.injEq] at h
    exact ⟨_, h.2.symm⟩

theorem acquire_error (w : Collaborators) (hw : w.raisesOnlyFailures)
    (DCCH : LogicalChannel) (s s1 : LoopState) (e : Signal)
    (h : acquire w DCCH s = (s1, .error e)) : ∃ f, e = Signal.exc f := by
  unfold acquire at h
  split at h
  · simp at h
  · simp only [] at h
    split at h
    · next e1 h1 =>
      simp only [Prod.mk.injEq, Except.error.injEq] at h
      exact h.2 ▸ hw.1 _ _ _ h1
    · split at h
      · next e1 h1 =>
        simp only [Prod.mk.injEq, Except.error.injEq] at h
        exact h.2 ▸ hw.2.1 _ _ h1
      · simp at h

theorem tryBlock_error (env : Env) (w : Collaborators) (hw : w.raisesOnlyFailures)
    (DCCH : LogicalChannel) (s s1 : LoopState) (e : Signal)
    (h : tryBlock env w DCCH s = (s1, .error e)) : ∃ f, e = Signal.exc f := by
  unfold tryBlock at h
  split at h
  · next s0 e0 h0 =>
    simp only [Prod.mk.injEq, Except.error.injEq] at h
    exact h.2 ▸ acquire_error w hw DCCH s s0 e0 h0
  · next s0 m h0 =>
    split at h
    · next s2 e2 h2 =>
      simp only [Prod.mk.injEq, Except.error.injEq] at h
      exact h.2 ▸ dispatchSwitch_error env w hw DCCH m s0 s2 e2 h2
    · simp at h

theorem DCCHDispatcherPass_ok (env : Env) (w : Collaborators) (hw : w.raisesOnlyFailures)
    (DCCH : LogicalChannel) (s : LoopState) :
    ∃ s', DCCHDispatcherPass env w DCCH s = .ok s' := by
  unfold DCCHDispatcherPass
  split
  · exact ⟨_, rfl⟩
  · exact ⟨_, rfl⟩
  · next s1 e hne h =>
    obtain ⟨f, hf⟩ := tryBlock_error env w hw DCCH s s1 e h
    exact absurd hf (by intro h'; exact hne f (h' ▸ rfl) |>.elim)

/-! ## The recovery branch -/

/-- C1: every handler other than the one for an `UnexpectedMessage` with a
captured frame sends exactly one channel release, on the channel of the loop,
with the cause fixed by the failure kind (ChannelReadTimeout 0x03,
UnexpectedPrimitive 0x62, UnexpectedMessage without frame 0x62,
UnsupportedMessage 0x61, Q931TimerExpired 0x03, SIPTimeout 0x03, SIPError
0x01); a pass whose `try` block raises such a failure sends that one release
and no other; and every release found in the trace of any run of the loop goes
to that channel with a cause among 0x01, 0x03, 0x61, 0x62. -/
theorem C1_release_cause_by_failure_kind (env : Env) (DCCH : LogicalChannel)
    (s : LoopState) (t : Nat) :
    releases (handler env DCCH (.ChannelReadTimeout t) s).trace
        = releases s.trace ++ [(DCCH, 0x03)] ∧
    releases (handler env DCCH (.UnexpectedPrimitive t) s).trace
        = releases s.trace ++ [(DCCH, 0x62)] ∧
    releases (handler env DCCH (.UnexpectedMessage t none) s).trace
        = releases s.trace ++ [(DCCH, 0x62)] ∧
    releases (handler env DCCH (.UnsupportedMessage t) s).trace
        = releases s.trace ++ [(DCCH, 0x61)] ∧
    releases (handler env DCCH (.Q931TimerExpired t) s).trace
        = releases s.trace ++ [(DCCH, 0x03)] ∧
    releases (handler env DCCH (.SIPTimeout t) s).trace
        = releases s.trace ++ [(DCCH, 0x03)] ∧
    releases (handler env DCCH (.SIPError t) s).trace
        = releases s.trace ++ [(DCCH, 0x01)] ∧
    (∀ (w : Collaborators) (s1 : LoopState) (f : Failure),
      tryBlock env w DCCH s = (s1, .error (.exc f)) → f.mpFrame = none →
      DCCHDispatcherPass env w DCCH s = .ok (handler env DCCH f s1) ∧
      ∃ c, releases (handler env DCCH f s1).trace = releases s.trace ++ [(DCCH, c)] ∧
        (c = 0x01 ∨ c = 0x03 ∨ c = 0x61 ∨ c = 0x62)) ∧
    (∀ (ws : List Collaborators) (table : TransactionTable) (s' : LoopState),
      DCCHDispatcher env DCCH ws (LoopState.start table) = .ok s' →
      ∀ p ∈ releases s'.trace,
        p.1 = DCCH ∧ (p.2 = 0x01 ∨ p.2 = 0x03 ∨ p.2 = 0x61 ∨ p.2 = 0x62)) := by
  refine ⟨?_, ?_, ?_, ?_, ?_, ?_, ?_, ?_, ?_⟩
  · simp [handler, sendRelease, clearHistory, LoopState.emit, releases_append, releases]
  · simp [handler, sendRelease, clearHistory, LoopState.emit, releases_append, releases]
  · simp [handler, sendRelease, clearHistory, LoopState.emit, releases_append, releases]
  · simp [handler, sendRelease, clearHistory, LoopState.emit, releases_append, releases]
  · simp [handler, sendRelease, clearHistory, LoopState.emit, releases_append, releases]
  · simp [handler, sendRelease, LoopState.emit, releases_append, releases]
  · simp [handler, sendRelease, LoopState.emit, releases_append, releases]
  · intro w s1 f ht hf
    have hr := tryBlock_releases env w DCCH s
    rw [ht] at hr
    obtain ⟨c, hc, hin⟩ := handler_release_of_no_frame env DCCH f s1 hf
    exact ⟨by simp [DCCHDispatcherPass, ht], c, by rw [hc, hr], hin⟩
  · intro ws table s' hs
    exact DCCHDispatcher_allowed env DCCH ws _ s' (allowed_start DCCH table) hs

/-- C1, on a run of two passes: the wait for ESTABLISH raises a SIP error, then
a controller raises an unsupported-message failure. -/
theorem C1_release_cause_by_failure_kind_witness :
    DCCHDispatcher env0 sdcch0
        [waitRaises (.SIPError 4), deliver lurMessage (.error (.exc (.UnsupportedMessage 5)))]
        (LoopState.start [4, 5])
      = .ok { message := some lurMessage, table := [4],
              trace := [.waitForPrimitive sdcch0 .ESTABLISH, .send sdcch0 0x01,
                        .waitForPrimitive sdcch0 .ESTABLISH, .getMessage sdcch0,
                        .call .LocationUpdatingController lurMessage (some sdcch0),
                        .clearTransactionHistory 5, .send sdcch0 0x61] } ∧
    (∀ p ∈ releases [Event.waitForPrimitive sdcch0 .ESTABLISH, .send sdcch0 0x01,
                      .waitForPrimitive sdcch0 .ESTABLISH, .getMessage sdcch0,
                      .call .LocationUpdatingController lurMessage (some sdcch0),
                      .clearTransactionHistory 5, .send sdcch0 0x61],
        p.1 = sdcch0 ∧ (p.2 = 0x01 ∨ p.2 = 0x03 ∨ p.2 = 0x61 ∨ p.2 = 0x62)) :=
  ⟨rfl, (C1_release_cause_by_failure_kind env0 sdcch0 (LoopState.start []) 0).2.2.2.2.2.2.2.2
    [waitRaises (.SIPError 4), deliver lurMessage (.error (.exc (.UnsupportedMessage 5)))]
    [4, 5] _ rfl⟩

/-- C2: a `ChannelReadTimeout` raised by a controller during dispatch.  The
pass sends one release with cause 0x03 but keeps `message`; the next pass,
whose channel would deliver a GPRS suspension request, neither waits for
ESTABLISH nor pulls a message: it calls the controller on the kept
location-updating request again. -/
theorem C2_dispatch_failure_keeps_message :
    DCCHDispatcherPass env0 (deliver lurMessage (.error (.exc (.ChannelReadTimeout 7)))) sdcch0
        (LoopState.start [7])
      = .ok { message := some lurMessage, table := [],
              trace := [.waitForPrimitive sdcch0 .ESTABLISH, .getMessage sdcch0,
                        .call .LocationUpdatingController lurMessage (some sdcch0),
                        .clearTransactionHistory 7, .send sdcch0 0x03] } ∧
    DCCHDispatcher env0 sdcch0
        [deliver lurMessage (.error (.exc (.ChannelReadTimeout 7))),
         deliver suspensionMessage (.ok ())]
        (LoopState.start [7])
      = .ok { message := none, table := [],
              trace := [.waitForPrimitive sdcch0 .ESTABLISH, .getMessage sdcch0,
                        .call .LocationUpdatingController lurMessage (some sdcch0),
                        .clearTransactionHistory 7, .send sdcch0 0x03,
                        .call .LocationUpdatingController lurMessage (some sdcch0),
                        .deleteMessage lurMessage] } :=
  ⟨rfl, rfl⟩

/-- The part of the return to `WaitEstablish` that holds: a failure without a
captured frame raised before dispatch (while waiting for ESTABLISH or while
pulling the first message) leaves the loop without a current message, so the
next pass starts by waiting for ESTABLISH. -/
theorem failure_before_dispatch_waits (env : Env) (w w' : Collaborators)
    (DCCH : LogicalChannel) (s s1 : LoopState) (f : Failure)
    (hm : s.message = none) (hf : f.mpFrame = none)
    (hr : acquire w DCCH s = (s1, .error (.exc f))) :
    DCCHDispatcherPass env w DCCH s = .ok (handler env DCCH f s1) ∧
    (handler env DCCH f s1).message = none ∧
    ∃ s2 r, acquire w' DCCH (handler env DCCH f s1) = (s2, r) ∧
      s2.trace.take ((handler env DCCH f s1).trace.length + 1)
        = (handler env DCCH f s1).trace ++ [Event.waitForPrimitive DCCH .ESTABLISH] := by
  have hs1 : s1.message = none := by
    unfold acquire at hr
    rw [hm] at hr
    simp only [] at hr
    split at hr
    · cases hr; simp [LoopState.emit, hm]
    · split at hr
      · cases hr; simp [LoopState.emit, hm]
      · cases hr
  have hh : (handler env DCCH f s1).message = none := by
    cases f <;> simp_all [handler, sendRelease, clearHistory, LoopState.emit, Failure.mpFrame]
  refine ⟨?_, hh, ?_⟩
  · simp [DCCHDispatcherPass, tryBlock, hr]
  · refine ⟨(acquire w' DCCH (handler env DCCH f s1)).1,
      (acquire w' DCCH (handler env DCCH f s1)).2, rfl, ?_⟩
    unfold acquire
    rw [hh]
    simp only []
    split
    · simp [LoopState.emit]
    · split <;> simp [LoopState.emit, List.take_append_eq_append_take]

/-- C3, as stated, fails: the handler of a `SIPTimeout` does not clear the
transaction history, so an entry for the failure's transaction id that was in
the store before recovery is still there afterwards. -/
theorem C3_counterexample_sip_keeps_history :
    ¬ (∀ (env : Env) (DCCH : LogicalChannel) (f : Failure) (s : LoopState),
        f.transactionID ∉ (handler env DCCH f s).table) := by
  intro h
  exact h env0 sdcch0 (.SIPTimeout 7) (LoopState.start [7])
    (by simp [handler, sendRelease, LoopState.emit, LoopState.start, Failure.transactionID])

/-- C3, amended: for every channel, every prior store and every failure other
than `SIPTimeout` and `SIPError`, after the handler has run the store has no
entry for the failure's transaction id, and the clear is the first action of
the handler, before the release send or the re-decode.  For `SIPTimeout` and
`SIPError` the handler leaves the store as it was and only sends the
release. -/
theorem C3_recovery_clears_history (env : Env) (DCCH : LogicalChannel) (f : Failure)
    (s : LoopState) :
    ((∀ t, f ≠ .SIPTimeout t ∧ f ≠ .SIPError t) →
      f.transactionID ∉ (handler env DCCH f s).table ∧
      (handler env DCCH f s).table = clearTransactionHistory f.transactionID s.table ∧
      ∃ rest, (handler env DCCH f s).trace
            = s.trace ++ Event.clearTransactionHistory f.transactionID :: rest ∧
          ((∃ c, rest = [Event.send DCCH c]) ∨
           (∃ frame, f.mpFrame = some frame ∧
              rest = [Event.parseL3 frame, Event.deleteFrame frame]))) ∧
    ((∃ t, f = .SIPTimeout t ∨ f = .SIPError t) →
      (handler env DCCH f s).table = s.table ∧
      ∃ c, (handler env DCCH f s).trace = s.trace ++ [Event.send DCCH c]) := by
  constructor
  · intro hf
    cases f with
    | SIPTimeout t => exact absurd rfl (hf t).1
    | SIPError t => exact absurd rfl (hf t).2
    | UnexpectedMessage t fr =>
      cases fr <;>
        simp [handler, sendRelease, clearHistory, LoopState.emit, Failure.transactionID,
          Failure.mpFrame, clearTransactionHistory]
    | _ =>
      simp [handler, sendRelease, clearHistory, LoopState.emit, Failure.transactionID,
        Failure.mpFrame, clearTransactionHistory]
  · rintro ⟨t, rfl | rfl⟩ <;> simp [handler, sendRelease, LoopState.emit]

/-- C3, amended, at a read timeout for transaction 7 with the store holding 7
and 8, and at a SIP timeout for the same transaction and store. -/
theorem C3_recovery_clears_history_witness :
    (∀ t, Failure.ChannelReadTimeout 7 ≠ .SIPTimeout t ∧
          Failure.ChannelReadTimeout 7 ≠ .SIPError t) ∧
    (handler env0 sdcch0 (.ChannelReadTimeout 7) (LoopState.start [7, 8])).table = [8] ∧
    (∃ t, Failure.SIPTimeout 7 = .SIPTimeout t ∨ Failure.SIPTimeout 7 = .SIPError t) ∧
    (handler env0 sdcch0 (.SIPTimeout 7) (LoopState.start [7, 8])).table = [7, 8] :=
  ⟨fun _ => ⟨by simp, by simp⟩,
   ((C3_recovery_clears_history env0 sdcch0 (.ChannelReadTimeout 7) (LoopState.start [7, 8])).1
      (fun _ => ⟨by simp, by simp⟩)).2.1,
   ⟨7, Or.inl rfl⟩,
   ((C3_recovery_clears_history env0 sdcch0 (.SIPTimeout 7) (LoopState.start [7, 8])).2
      ⟨7, Or.inl rfl⟩).1⟩

/-! ## The protocol demultiplexer -/

/-- C4, as stated, fails: not every message makes the demultiplexer call a
controller with the message and the channel.  A GPRS suspension request calls
no controller at all, and a location-updating request on a traffic channel
calls its controller with a null channel. -/
theorem C4_counterexample_not_every_message_routed :
    ¬ (∀ (env : Env) (w : Collaborators) (DCCH : LogicalChannel) (m : L3Message)
          (s : LoopState),
        ∃ ctl, calls (dispatchSwitch env w DCCH m s).1.trace
          = calls s.trace ++ [(ctl, m, some DCCH)]) ∧
    calls (dispatchSwitch env0 (deliver suspensionMessage (.ok ())) sdcch0 suspensionMessage
        (LoopState.start [])).1.trace = [] ∧
    calls (dispatchSwitch env0 (deliver lurMessage (.ok ())) tch1 lurMessage
        (LoopState.start [])).1.trace = [(.LocationUpdatingController, lurMessage, none)] := by
  refine ⟨?_, rfl, rfl⟩
  intro h
  obtain ⟨ctl, hc⟩ := h env0 (deliver suspensionMessage (.ok ())) sdcch0 suspensionMessage
    (LoopState.start [])
  have h0 : calls (dispatchSwitch env0 (deliver suspensionMessage (.ok ())) sdcch0
      suspensionMessage (LoopState.start [])).1.trace = [] := rfl
  rw [h0] at hc
  simp [LoopState.start, calls] at hc

/-- C4, amended: for every message whose protocol discriminator and type are
one of MM/LocationUpdatingRequest, MM/IMSIDetachIndication,
MM/CMServiceRequest, RR/PagingResponse, RR/AssignmentComplete, the
demultiplexer calls exactly one controller, exactly once: the one the table
names, with the message and with the channel narrowed as that controller
requires (the channel itself when it has the capability, null otherwise).
When ESTABLISH arrives, that message is pulled and the controller returns
normally, the pass consists of the wait, the pull, that one call and the
release of the message; no channel release is sent and the loop holds no
message afterwards. -/
theorem C4_demultiplexer_routes_named_types (env : Env) (w : Collaborators)
    (DCCH : LogicalChannel) (m : L3Message) (ctl : Controller) (s : LoopState)
    (hm : specifiedController m = some ctl) :
    calls (dispatchSwitch env w DCCH m s).1.trace
      = calls s.trace ++ [(ctl, m, specifiedChannel ctl DCCH)] ∧
    (s.message = none → w.waitForPrimitive DCCH .ESTABLISH = .ok () →
      w.getMessage DCCH = .ok m →
      (w.controller ctl m (specifiedChannel ctl DCCH) s.table).1 = .ok () →
      DCCHDispatcherPass env w DCCH s
        = .ok { message := none,
                table := (w.controller ctl m (specifiedChannel ctl DCCH) s.table).2,
                trace := s.trace ++ [Event.waitForPrimitive DCCH .ESTABLISH,
                                     Event.getMessage DCCH,
                                     Event.call ctl m (specifiedChannel ctl DCCH),
                                     Event.deleteMessage m] }) := by
  have hk : ∀ s1 : LoopState, dispatchSwitch env w DCCH m s1
      = invoke w ctl m (specifiedChannel ctl DCCH) s1 := by
    intro s1
    cases m with
    | MM r =>
      obtain ⟨mti, body⟩ := r
      cases mti <;> simp [specifiedController] at hm <;> subst hm <;>
        simp [dispatchSwitch, L3Message.PD, L3Message.asMM, DCCHDispatchMM, specifiedChannel,
          asSDCCH]
    | RR r =>
      obtain ⟨mti, body⟩ := r
      cases mti <;> simp [specifiedController] at hm <;> subst hm <;>
        simp [dispatchSwitch, L3Message.PD, L3Message.asRR, DCCHDispatchRR, specifiedChannel,
          asTCHFACCH]
    | other pd mti body => simp [specifiedController] at hm
  constructor
  · rw [hk]
    simp [invoke, calls_append, calls]
  · intro h0 hw hg hc
    simp [DCCHDispatcherPass, tryBlock, acquire, h0, hw, hg, hk, invoke, LoopState.emit, hc,
      releaseMessage]

/-- C4, amended, at a location-updating request on a dedicated signalling
channel whose controller returns normally. -/
theorem C4_demultiplexer_routes_named_types_witness :
    specifiedController lurMessage = some .LocationUpdatingController ∧
    calls (dispatchSwitch env0 (deliver lurMessage (.ok ())) sdcch0 lurMessage
        (LoopState.start [])).1.trace
      = [(.LocationUpdatingController, lurMessage, some sdcch0)] ∧
    DCCHDispatcherPass env0 (deliver lurMessage (.ok ())) sdcch0 (LoopState.start [])
      = .ok { message := none, table := [],
              trace := [.waitForPrimitive sdcch0 .ESTABLISH, .getMessage sdcch0,
                        .call .LocationUpdatingController lurMessage (some sdcch0),
                        .deleteMessage lurMessage] } :=
  ⟨rfl,
   (C4_demultiplexer_routes_named_types env0 (deliver lurMessage (.ok ())) sdcch0 lurMessage
      .LocationUpdatingController (LoopState.start []) rfl).1,
   (C4_demultiplexer_routes_named_types env0 (deliver lurMessage (.ok ())) sdcch0 lurMessage
      .LocationUpdatingController (LoopState.start []) rfl).2 rfl rfl rfl rfl⟩

/-- C5: a message whose protocol discriminator is neither MM nor RR, an MM
message whose type is none of LocationUpdatingRequest, IMSIDetachIndication,
CMServiceRequest, and an RR message whose type is none of PagingResponse,
AssignmentComplete, GPRSSuspensionRequest all make the demultiplexer signal
`UnsupportedMessage` without calling a controller; for an unknown
discriminator the message is freed first.  The pass in which that message is
the one dispatched then clears the transaction history for the failure's
transaction id and sends one release with cause 0x61. -/
theorem C5_unsupported_message_released (env : Env) (w : Collaborators)
    (DCCH : LogicalChannel) (m : L3Message) (s : LoopState)
    (hMM : ∀ r, m = .MM r → r.MTI ≠ .LocationUpdatingRequest ∧
      r.MTI ≠ .IMSIDetachIndication ∧ r.MTI ≠ .CMServiceRequest)
    (hRR : ∀ r, m = .RR r → r.MTI ≠ .PagingResponse ∧
      r.MTI ≠ .AssignmentComplete ∧ r.MTI ≠ .GPRSSuspensionRequest) :
    (dispatchSwitch env w DCCH m s).2
      = .error (.exc (.UnsupportedMessage env.defaultTransactionID)) ∧
    calls (dispatchSwitch env w DCCH m s).1.trace = calls s.trace ∧
    (m.PD ≠ .L3MobilityManagementPD → m.PD ≠ .L3RadioResourcePD →
      (dispatchSwitch env w DCCH m s).1
        = { s with message := none, trace := s.trace ++ [Event.deleteMessage m] }) ∧
    (∀ s0 : LoopState, acquire w DCCH s0 = (s, .ok m) →
      ∃ s', DCCHDispatcherPass env w DCCH s0 = .ok s' ∧
        s'.table = clearTransactionHistory env.defaultTransactionID s.table ∧
        ∃ freed, (freed = [] ∨ freed = [Event.deleteMessage m]) ∧
          s'.trace = s.trace ++ freed
            ++ [Event.clearTransactionHistory env.defaultTransactionID,
                Event.send DCCH 0x61]) := by
  have pass : ∀ (s0 s1 : LoopState),
      acquire w DCCH s0 = (s, .ok m) →
      dispatchSwitch env w DCCH m s
        = (s1, .error (.exc (.UnsupportedMessage env.defaultTransactionID))) →
      DCCHDispatcherPass env w DCCH s0
        = .ok (handler env DCCH (.UnsupportedMessage env.defaultTransactionID) s1) := by
    intro s0 s1 ha hd
    simp [DCCHDispatcherPass, tryBlock, ha, hd]
  cases m with
  | MM r =>
    obtain ⟨mti, body⟩ := r
    have h := hMM _ rfl
    cases mti with
    | otherMM code =>
      have hd : dispatchSwitch env w DCCH (.MM { MTI := .otherMM code, body := body }) s
          = (s, .error (.exc (.UnsupportedMessage env.defaultTransactionID))) := by
        simp [dispatchSwitch, L3Message.PD, L3Message.asMM, DCCHDispatchMM]
      refine ⟨by rw [hd], by rw [hd], by simp [L3Message.PD], ?_⟩
      intro s0 ha
      refine ⟨_, pass s0 s ha hd, ?_, [], Or.inl rfl, ?_⟩ <;>
        simp [handler, sendRelease, clearHistory, LoopState.emit]
    | _ => simp at h
  | RR r =>
    obtain ⟨mti, body⟩ := r
    have h := hRR _ rfl
    cases mti with
    | otherRR code =>
      have hd : dispatchSwitch env w DCCH (.RR { MTI := .otherRR code, body := body }) s
          = (s, .error (.exc (.UnsupportedMessage env.defaultTransactionID))) := by
        simp [dispatchSwitch, L3Message.PD, L3Message.asRR, DCCHDispatchRR]
      refine ⟨by rw [hd], by rw [hd], by simp [L3Message.PD], ?_⟩
      intro s0 ha
      refine ⟨_, pass s0 s ha hd, ?_, [], Or.inl rfl, ?_⟩ <;>
        simp [handler, sendRelease, clearHistory, LoopState.emit]
    | _ => simp at h
  | other pd mti body =>
    have hd : dispatchSwitch env w DCCH (.other pd mti body) s
        = ({ s with message := none,
                    trace := s.trace ++ [Event.deleteMessage (.other pd mti body)] },
           .error (.exc (.UnsupportedMessage env.defaultTransactionID))) := by
      simp [dispatchSwitch, L3Message.PD]
    refine ⟨by rw [hd], by rw [hd]; simp [calls_append, calls], by rw [hd]; simp, ?_⟩
    intro s0 ha
    refine ⟨_, pass s0 _ ha hd, ?_, [Event.deleteMessage (.other pd mti body)],
      Or.inr rfl, ?_⟩ <;>
      simp [handler, sendRelease, clearHistory, LoopState.emit]

/-- C5, at a mobility-management message of an unnamed type pulled on a
dedicated signalling channel. -/
theorem C5_unsupported_message_released_witness :
    (∀ r, strangeMessage = .MM r → r.MTI ≠ .LocationUpdatingRequest ∧
      r.MTI ≠ .IMSIDetachIndication ∧ r.MTI ≠ .CMServiceRequest) ∧
    (dispatchSwitch env0 (deliver strangeMessage (.ok ())) sdcch0 strangeMessage
        (LoopState.start [0, 3])).2 = .error (.exc (.UnsupportedMessage 0)) ∧
    DCCHDispatcherPass env0 (deliver strangeMessage (.ok ())) sdcch0 (LoopState.start [0, 3])
      = .ok { message := some strangeMessage, table := [3],
              trace := [.waitForPrimitive sdcch0 .ESTABLISH, .getMessage sdcch0,
                        .clearTransactionHistory 0, .send sdcch0 0x61] } :=
  ⟨by intro r h; cases h; simp,
   (C5_unsupported_message_released env0 (deliver strangeMessage (.ok ())) sdcch0
      strangeMessage (LoopState.start [0, 3])
      (by intro r h; cases h; simp) (by intro r h; cases h)).1,
   rfl⟩

/-- C6: the handler of an `UnexpectedMessage` whose captured frame re-decodes to
a message sends no release and makes that message the current one; the next
pass, whatever its collaborators do, neither waits for ESTABLISH nor pulls a
message: its `try` block is the dispatch of that message through the
demultiplexer. -/
theorem C6_unexpected_message_redispatched (env : Env) (DCCH : LogicalChannel)
    (s : LoopState) (t : Nat) (frame : L3Frame) (m' : L3Message)
    (hp : env.parseL3 frame = some m') :
    (handler env DCCH (.UnexpectedMessage t (some frame)) s).message = some m' ∧
    (handler env DCCH (.UnexpectedMessage t (some frame)) s).trace
      = s.trace ++ [Event.clearTransactionHistory t, Event.parseL3 frame,
                    Event.deleteFrame frame] ∧
    releases (handler env DCCH (.UnexpectedMessage t (some frame)) s).trace
      = releases s.trace ∧
    (∀ (w : Collaborators) (s0 : LoopState),
      tryBlock env w DCCH s0 = (s, .error (.exc (.UnexpectedMessage t (some frame)))) →
      DCCHDispatcherPass env w DCCH s0
        = .ok (handler env DCCH (.UnexpectedMessage t (some frame)) s)) ∧
    (∀ w : Collaborators,
      acquire w DCCH (handler env DCCH (.UnexpectedMessage t (some frame)) s)
        = (handler env DCCH (.UnexpectedMessage t (some frame)) s, .ok m') ∧
      tryBlock env w DCCH (handler env DCCH (.UnexpectedMessage t (some frame)) s)
        = match dispatchSwitch env w DCCH m'
              (handler env DCCH (.UnexpectedMessage t (some frame)) s) with
          | (s2, .error e) => (s2, .error e)
          | (s2, .ok _) => (releaseMessage m' s2, .ok ())) := by
  have hm : (handler env DCCH (.UnexpectedMessage t (some frame)) s).message = some m' := by
    simp [handler, hp]
  refine ⟨hm, by simp [handler, clearHistory],
    by simp [handler, clearHistory, releases_append, releases], ?_, ?_⟩
  · intro w s0 h
    simp [DCCHDispatcherPass, h]
  · intro w
    have ha : acquire w DCCH (handler env DCCH (.UnexpectedMessage t (some frame)) s)
        = (handler env DCCH (.UnexpectedMessage t (some frame)) s, .ok m') := by
      simp [acquire, hm]
    exact ⟨ha, by simp [tryBlock, ha]⟩

/-- C6, at an unexpected message for transaction 9 whose captured frame
re-decodes to a GPRS suspension request. -/
theorem C6_unexpected_message_redispatched_witness :
    env1.parseL3 { payload := [1] } = some suspensionMessage ∧
    (handler env1 sdcch0 (.UnexpectedMessage 9 (some { payload := [1] }))
        (LoopState.start [9])).message = some suspensionMessage ∧
    (handler env1 sdcch0 (.UnexpectedMessage 9 (some { payload := [1] }))
        (LoopState.start [9])).trace
      = [.clearTransactionHistory 9, .parseL3 { payload := [1] },
         .deleteFrame { payload := [1] }] :=
  ⟨rfl,
   (C6_unexpected_message_redispatched env1 sdcch0 (LoopState.start [9]) 9 { payload := [1] }
      suspensionMessage rfl).1,
   (C6_unexpected_message_redispatched env1 sdcch0 (LoopState.start [9]) 9 { payload := [1] }
      suspensionMessage rfl).2.1⟩

/-- C8: for a radio-resource message of type GPRSSuspensionRequest, on any
channel, `DCCHDispatchRR` calls no controller, signals nothing and changes
nothing; the pass that pulled the message sends no release, leaves the
transaction history as it was, frees the message and ends without a current
message, so the next pass waits for ESTABLISH on the same channel. -/
theorem C8_suspension_request_ignored (env : Env) (w : Collaborators)
    (DCCH : LogicalChannel) (s : LoopState) (body : Nat) :
    DCCHDispatchRR env w (some { MTI := .GPRSSuspensionRequest, body := body }) DCCH s
      = (s, .ok ()) ∧
    dispatchSwitch env w DCCH (.RR { MTI := .GPRSSuspensionRequest, body := body }) s
      = (s, .ok ()) ∧
    (s.message = none → w.waitForPrimitive DCCH .ESTABLISH = .ok () →
      w.getMessage DCCH = .ok (.RR { MTI := .GPRSSuspensionRequest, body := body }) →
      DCCHDispatcherPass env w DCCH s
        = .ok { message := none, table := s.table,
                trace := s.trace ++ [Event.waitForPrimitive DCCH .ESTABLISH,
                  Event.getMessage DCCH,
                  Event.deleteMessage (.RR { MTI := .GPRSSuspensionRequest, body := body })] }) ∧
    (∀ (w' : Collaborators) (tbl : TransactionTable) (tr : List Event),
      (acquire w' DCCH { message := none, table := tbl, trace := tr }).1.trace.take
          (tr.length + 1)
        = tr ++ [Event.waitForPrimitive DCCH .ESTABLISH]) := by
  refine ⟨by simp [DCCHDispatchRR],
    by simp [dispatchSwitch, L3Message.PD, L3Message.asRR, DCCHDispatchRR], ?_, ?_⟩
  · intro h0 hw hg
    simp [DCCHDispatcherPass, tryBlock, acquire, h0, hw, hg, dispatchSwitch, L3Message.PD,
      L3Message.asRR, DCCHDispatchRR, LoopState.emit, releaseMessage]
  · intro w' tbl tr
    unfold acquire
    simp only []
    split
    · simp [LoopState.emit]
    · split <;> simp [LoopState.emit, List.take_append_eq_append_take]

/-- C8, at a GPRS suspension request pulled on a traffic channel with
transaction 3 in the store. -/
theorem C8_suspension_request_ignored_witness :
    (LoopState.start [3]).message = none ∧
    DCCHDispatcherPass env0 (deliver suspensionMessage (.ok ())) tch1 (LoopState.start [3])
      = .ok { message := none, table := [3],
              trace := [.waitForPrimitive tch1 .ESTABLISH, .getMessage tch1,
                        .deleteMessage suspensionMessage] } :=
  ⟨rfl,
   (C8_suspension_request_ignored env0 (deliver suspensionMessage (.ok ())) tch1
      (LoopState.start [3]) 12).2.2.1 rfl rfl rfl⟩

/-- C9: whatever the loop state, when the collaborators raise nothing but the
failure kinds the handlers name (ChannelReadTimeout, UnexpectedPrimitive,
UnexpectedMessage with or without frame, UnsupportedMessage, Q931TimerExpired,
SIPTimeout, SIPError), at any point of a pass, a failure raised in the `try`
block is caught in that pass and the pass yields the handler's state; every
pass, and every finite run of passes, ends in a loop state and no signal
reaches the caller. -/
theorem C9_failures_never_end_the_loop (env : Env) (DCCH : LogicalChannel)
    (ws : List Collaborators) (s : LoopState) (hws : ∀ w ∈ ws, w.raisesOnlyFailures) :
    (∃ s', DCCHDispatcher env DCCH ws s = .ok s') ∧
    (∀ w ∈ ws, ∀ s0 : LoopState,
      (∃ s', DCCHDispatcherPass env w DCCH s0 = .ok s') ∧
      ∀ s1 e, tryBlock env w DCCH s0 = (s1, .error e) →
        ∃ f, e = .exc f ∧ DCCHDispatcherPass env w DCCH s0 = .ok (handler env DCCH f s1)) := by
  constructor
  · induction ws generalizing s with
    | nil => exact ⟨s, rfl⟩
    | cons w ws ih =>
      obtain ⟨s1, h1⟩ := DCCHDispatcherPass_ok env w (hws w (List.mem_cons_self _ _)) DCCH s
      obtain ⟨s2, h2⟩ := ih s1 (fun w' hw' => hws w' (List.mem_cons_of_mem _ hw'))
      exact ⟨s2, by simp [DCCHDispatcher, h1, h2]⟩
  · intro w hw s0
    refine ⟨DCCHDispatcherPass_ok env w (hws w hw) DCCH s0, ?_⟩
    intro s1 e h
    obtain ⟨f, rfl⟩ := tryBlock_error env w (hws w hw) DCCH s0 s1 e h
    exact ⟨f, rfl, by simp [DCCHDispatcherPass, h]⟩

/-- C9, on a run of three passes in which a controller raises a read timeout,
then a Q.931 timer expiry, and then the wait for ESTABLISH raises a SIP
error. -/
theorem C9_failures_never_end_the_loop_witness :
    (∀ w ∈ [deliver lurMessage (.error (.exc (.ChannelReadTimeout 7))),
            deliver lurMessage (.error (.exc (.Q931TimerExpired 7))),
            waitRaises (.SIPError 4)], w.raisesOnlyFailures) ∧
    (∃ s', DCCHDispatcher env0 sdcch0
        [deliver lurMessage (.error (.exc (.ChannelReadTimeout 7))),
         deliver lurMessage (.error (.exc (.Q931TimerExpired 7))),
         waitRaises (.SIPError 4)] (LoopState.start [7]) = .ok s') :=
  ⟨by
      intro w hw
      simp only [List.mem_cons, List.mem_singleton, List.not_mem_nil, or_false] at hw
      rcases hw with rfl | rfl | rfl <;>
        simp [Collaborators.raisesOnlyFailures, deliver, waitRaises],
   (C9_failures_never_end_the_loop env0 sdcch0
      [deliver lurMessage (.error (.exc (.ChannelReadTimeout 7))),
       deliver lurMessage (.error (.exc (.Q931TimerExpired 7))),
       waitRaises (.SIPError 4)] (LoopState.start [7])
      (by
        intro w hw
        simp only [List.mem_cons, List.mem_singleton, List.not_mem_nil, or_false] at hw
        rcases hw with rfl | rfl | rfl <;>
          simp [Collaborators.raisesOnlyFailures, deliver, waitRaises])).1⟩

/-! ## The packet-channel loop -/

/-- C7: when the received frame has payload type Data and decodes to a data
block with countdown value `cv`, flow identifier `t` and link identifier `l`,
one pass of `Control::PDCHDispatcher` transmits on the same channel exactly one
frame, the encoding of the control block built from `(t, l)`, if `cv = 0`, and
transmits nothing if `cv` is not zero. -/
theorem C7_final_data_block_acknowledged (codec : Codec) (PDCH : LogicalChannel)
    (frame : RLCMACFrame) (tr : List PDCHEvent) (cv t l : Nat)
    (hp : frame.payloadType = .RLCMACDataBlockType)
    (hd : codec.parseRLCMAC frame = some (.data { CV := cv, TFI := t, TLLI := l })) :
    ∃ tr', PDCHDispatcherPass codec PDCH (some frame) tr = some tr' ∧
      (cv = 0 → transmitted tr'
        = transmitted tr ++ [(PDCH, codec.write { TFI := t, TLLI := l })]) ∧
      (cv ≠ 0 → transmitted tr' = transmitted tr) := by
  by_cases hcv : cv = 0
  · refine ⟨_, by simp [PDCHDispatcherPass, hp, hd, hcv]; rfl, ?_, ?_⟩
    · intro _
      simp [transmitted_append, transmitted]
    · intro h
      exact absurd hcv h
  · refine ⟨_, by simp [PDCHDispatcherPass, hp, hd, hcv]; rfl, ?_, ?_⟩
    · intro h
      exact absurd h hcv
    · intro _
      simp [transmitted_append, transmitted]

/-- C7, at a data block with countdown value 0, TFI 5 and TLLI 0x12345678: one
control frame carrying TFI 5 and TLLI 0x12345678 is transmitted. -/
theorem C7_final_data_block_acknowledged_witness :
    finalDataFrame.payloadType = .RLCMACDataBlockType ∧
    codec0.parseRLCMAC finalDataFrame
      = some (.data { CV := 0, TFI := 5, TLLI := 0x12345678 }) ∧
    (∃ tr', PDCHDispatcherPass codec0 pdtch0 (some finalDataFrame) [] = some tr' ∧
      (0 = 0 → transmitted tr'
        = transmitted [] ++ [(pdtch0, codec0.write { TFI := 5, TLLI := 0x12345678 })]) ∧
      (0 ≠ 0 → transmitted tr' = transmitted [])) ∧
    codec0.write { TFI := 5, TLLI := 0x12345678 }
      = { payloadType := .RLCMACControlBlockType1, bits := [5, 0x12345678] } :=
  ⟨rfl, rfl,
   C7_final_data_block_acknowledged codec0 pdtch0 finalDataFrame [] 0 5 0x12345678 rfl rfl,
   rfl⟩

/-- C10: in a pass of `Control::PDCHDispatcher` whose received frame is null,
or is present with a payload type other than Data, no block is decoded,
nothing is transmitted, the pass is defined (nothing is signalled), and the
loop goes on with the next receive. -/
theorem C10_poll_miss_and_other_payloads_ignored (codec : Codec) (PDCH : LogicalChannel)
    (received : Option RLCMACFrame) (tr : List PDCHEvent)
    (h : ∀ frame, received = some frame → frame.payloadType ≠ .RLCMACDataBlockType) :
    ∃ tr', PDCHDispatcherPass codec PDCH received tr = some tr' ∧
      decoded tr' = decoded tr ∧
      transmitted tr' = transmitted tr ∧
      ∀ rs, PDCHDispatcher codec PDCH (received :: rs) tr = PDCHDispatcher codec PDCH rs tr' := by
  cases received with
  | none =>
    refine ⟨tr ++ [PDCHEvent.recvPDCH PDCH], by simp [PDCHDispatcherPass], ?_, ?_, ?_⟩
    · simp [decoded_append, decoded]
    · simp [transmitted_append, transmitted]
    · intro rs
      simp [PDCHDispatcher, PDCHDispatcherPass]
  | some frame =>
    have hf := h frame rfl
    have hpass : PDCHDispatcherPass codec PDCH (some frame) tr
        = some (tr ++ [PDCHEvent.recvPDCH PDCH] ++ [PDCHEvent.deleteFrame frame]) := by
      cases hpt : frame.payloadType with
      | RLCMACDataBlockType => exact absurd hpt hf
      | _ => simp [PDCHDispatcherPass, hpt]
    refine ⟨_, hpass, ?_, ?_, ?_⟩
    · simp [decoded_append, decoded]
    · simp [transmitted_append, transmitted]
    · intro rs
      simp [PDCHDispatcher, hpass]

/-- C10, at a poll miss followed by a control frame. -/
theorem C10_poll_miss_and_other_payloads_ignored_witness :
    (∀ frame, (some controlFrame) = some frame → frame.payloadType ≠ .RLCMACDataBlockType) ∧
    (∃ tr', PDCHDispatcherPass codec0 pdtch0 (some controlFrame) [] = some tr' ∧
      decoded tr' = decoded [] ∧
      transmitted tr' = transmitted [] ∧
      ∀ rs, PDCHDispatcher codec0 pdtch0 (some controlFrame :: rs) []
        = PDCHDispatcher codec0 pdtch0 rs tr') ∧
    PDCHDispatcher codec0 pdtch0 [none, some controlFrame] []
      = some [.recvPDCH pdtch0, .recvPDCH pdtch0, .deleteFrame controlFrame] :=
  ⟨by intro frame hfr; cases hfr; simp [controlFrame],
   C10_poll_miss_and_other_payloads_ignored codec0 pdtch0 (some controlFrame) []
     (by intro frame hfr; cases hfr; simp [controlFrame]),
   rfl⟩

/-! ## Ownership of the current message -/

theorem freed_append (a b : List Event) : freed (a ++ b) = freed a ++ freed b := by
  induction a with
  | nil => rfl
  | cons e es ih => cases e <;> simp [freed, ih]

theorem handler_freed (env : Env) (DCCH : LogicalChannel) (f : Failure) (s : LoopState) :
    freed (handler env DCCH f s).trace = freed s.trace := by
  unfold handler
  split <;> simp [sendRelease, clearHistory, LoopState.emit, freed_append, freed]

theorem acquire_freed (w : Collaborators) (DCCH : LogicalChannel) (s : LoopState) :
    freed (acquire w DCCH s).1.trace = freed s.trace := by
  unfold acquire
  split
  · rfl
  · simp only []
    split
    · simp [LoopState.emit, freed_append, freed]
    · split <;> simp [LoopState.emit, freed_append, freed]

theorem acquire_message (w : Collaborators) (DCCH : LogicalChannel) (s s1 : LoopState)
    (m : L3Message) (h : acquire w DCCH s = (s1, .ok m)) : s1.message = some m := by
  unfold acquire at h
  split at h
  · next m0 hm =>
    simp only [Prod.mk.injEq, Except.ok.injEq] at h
    rw [← h.1, ← h.2]
    exact hm
  · simp only [] at h
    split at h
    · simp at h
    · split at h
      · simp at h
      · simp only [Prod.mk.injEq, Except.ok.injEq] at h
        rw [← h.1, ← h.2]

theorem dispatchSwitch_keeps_message (env : Env) (w : Collaborators) (DCCH : LogicalChannel)
    (m : L3Message) (s : LoopState)
    (hPD : m.PD = .L3MobilityManagementPD ∨ m.PD = .L3RadioResourcePD) :
    (dispatchSwitch env w DCCH m s).1.message = s.message ∧
    freed (dispatchSwitch env w DCCH m s).1.trace = freed s.trace := by
  cases m with
  | MM r =>
    obtain ⟨mti, body⟩ := r
    cases mti <;>
      simp [dispatchSwitch, L3Message.PD, L3Message.asMM, DCCHDispatchMM, invoke, freed_append,
        freed]
  | RR r =>
    obtain ⟨mti, body⟩ := r
    cases mti <;>
      simp [dispatchSwitch, L3Message.PD, L3Message.asRR, DCCHDispatchRR, invoke, freed_append,
        freed]
  | other pd mti body => simp [L3Message.PD] at hPD

theorem handler_keeps_message (env : Env) (DCCH : LogicalChannel) (f : Failure)
    (s : LoopState) (hf : f.mpFrame = none) : (handler env DCCH f s).message = s.message := by
  cases f with
  | UnexpectedMessage t fr =>
    simp only [Failure.mpFrame] at hf
    subst hf
    simp [handler, sendRelease, clearHistory, LoopState.emit]
  | _ => simp [handler, sendRelease, clearHistory, LoopState.emit]

/-- Within one `try` block at most one message is freed: the one dispatched, and
then the loop holds no message. -/
theorem tryBlock_freed (env : Env) (w : Collaborators) (DCCH : LogicalChannel)
    (s : LoopState) :
    freed (tryBlock env w DCCH s).1.trace = freed s.trace ∨
    ∃ s1 m, acquire w DCCH s = (s1, .ok m) ∧
      freed (tryBlock env w DCCH s).1.trace = freed s.trace ++ [m] ∧
      (tryBlock env w DCCH s).1.message = none := by
  have ha := acquire_freed w DCCH s
  rcases hacq : acquire w DCCH s with ⟨s1, r⟩
  rw [hacq] at ha
  cases r with
  | error e =>
    left
    simp only [tryBlock, hacq]
    exact ha
  | ok m =>
    simp only [] at ha
    rcases hd : dispatchSwitch env w DCCH m s1 with ⟨s2, r2⟩
    cases m with
    | other pd mti body =>
      right
      refine ⟨s1, _, rfl, ?_, ?_⟩ <;>
        simp [tryBlock, hacq, dispatchSwitch, L3Message.PD, freed_append, freed, ha]
    | MM r =>
      have hk := dispatchSwitch_keeps_message env w DCCH (.MM r) s1 (Or.inl rfl)
      rw [hd] at hk
      cases r2 with
      | error e =>
        left
        simp only [tryBlock, hacq, hd]
        rw [hk.2, ha]
      | ok u =>
        right
        refine ⟨s1, _, rfl, ?_, ?_⟩ <;>
          simp [tryBlock, hacq, hd, releaseMessage, freed_append, freed, hk.2, ha]
    | RR r =>
      have hk := dispatchSwitch_keeps_message env w DCCH (.RR r) s1 (Or.inr rfl)
      rw [hd] at hk
      cases r2 with
      | error e =>
        left
        simp only [tryBlock, hacq, hd]
        rw [hk.2, ha]
      | ok u =>
        right
        refine ⟨s1, _, rfl, ?_, ?_⟩ <;>
          simp [tryBlock, hacq, hd, releaseMessage, freed_append, freed, hk.2, ha]

/-- C11: a location-updating request is pulled and its controller raises an
`UnexpectedMessage` with a captured frame that re-decodes to a GPRS suspension
request.  The handler overwrites `message` with the re-decoded message; when
the run ends the loop holds no message and the only message ever freed is the
re-decoded one: the location-updating request is dropped without being
freed.  And after a pass in which the controller raises a read timeout, the
pulled request is still held and nothing has been freed. -/
theorem C11_replaced_message_never_freed :
    DCCHDispatcher env1 sdcch0
        [deliver lurMessage (.error (.exc (.UnexpectedMessage 9 (some { payload := [1] })))),
         deliver lurMessage (.ok ())]
        (LoopState.start [9])
      = .ok { message := none, table := [],
              trace := [.waitForPrimitive sdcch0 .ESTABLISH, .getMessage sdcch0,
                        .call .LocationUpdatingController lurMessage (some sdcch0),
                        .clearTransactionHistory 9, .parseL3 { payload := [1] },
                        .deleteFrame { payload := [1] },
                        .deleteMessage suspensionMessage] } ∧
    freed [Event.waitForPrimitive sdcch0 .ESTABLISH, .getMessage sdcch0,
           .call .LocationUpdatingController lurMessage (some sdcch0),
           .clearTransactionHistory 9, .parseL3 { payload := [1] },
           .deleteFrame { payload := [1] },
           .deleteMessage suspensionMessage] = [suspensionMessage] ∧
    DCCHDispatcherPass env0 (deliver lurMessage (.error (.exc (.ChannelReadTimeout 7)))) sdcch0
        (LoopState.start [7])
      = .ok { message := some lurMessage, table := [],
              trace := [.waitForPrimitive sdcch0 .ESTABLISH, .getMessage sdcch0,
                        .call .LocationUpdatingController lurMessage (some sdcch0),
                        .clearTransactionHistory 7, .send sdcch0 0x03] } ∧
    freed [Event.waitForPrimitive sdcch0 .ESTABLISH, .getMessage sdcch0,
           .call .LocationUpdatingController lurMessage (some sdcch0),
           .clearTransactionHistory 7, .send sdcch0 0x03] = [] :=
  ⟨rfl, rfl, rfl, rfl⟩

theorem dispatchSwitch_unrouted (env : Env) (w : Collaborators) (DCCH : LogicalChannel)
    (m : L3Message) (s : LoopState)
    (hPD : m.PD = .L3MobilityManagementPD ∨ m.PD = .L3RadioResourcePD)
    (hMM : ∀ r, m = .MM r → r.MTI ≠ .LocationUpdatingRequest ∧
      r.MTI ≠ .IMSIDetachIndication ∧ r.MTI ≠ .CMServiceRequest)
    (hRR : ∀ r, m = .RR r → r.MTI ≠ .PagingResponse ∧
      r.MTI ≠ .AssignmentComplete ∧ r.MTI ≠ .GPRSSuspensionRequest) :
    dispatchSwitch env w DCCH m s
      = (s, .error (.exc (.UnsupportedMessage env.defaultTransactionID))) := by
  cases m with
  | MM r =>
    obtain ⟨mti, body⟩ := r
    have h := hMM _ rfl
    cases mti with
    | otherMM code => simp [dispatchSwitch, L3Message.PD, L3Message.asMM, DCCHDispatchMM]
    | _ => simp at h
  | RR r =>
    obtain ⟨mti, body⟩ := r
    have h := hRR _ rfl
    cases mti with
    | otherRR code => simp [dispatchSwitch, L3Message.PD, L3Message.asRR, DCCHDispatchRR]
    | _ => simp at h
  | other pd mti body => simp [L3Message.PD] at hPD

theorem pass_unrouted_held (env : Env) (w : Collaborators) (DCCH : LogicalChannel)
    (m : L3Message) (s : LoopState)
    (hPD : m.PD = .L3MobilityManagementPD ∨ m.PD = .L3RadioResourcePD)
    (hMM : ∀ r, m = .MM r → r.MTI ≠ .LocationUpdatingRequest ∧
      r.MTI ≠ .IMSIDetachIndication ∧ r.MTI ≠ .CMServiceRequest)
    (hRR : ∀ r, m = .RR r → r.MTI ≠ .PagingResponse ∧
      r.MTI ≠ .AssignmentComplete ∧ r.MTI ≠ .GPRSSuspensionRequest)
    (hs : s.message = some m) :
    DCCHDispatcherPass env w DCCH s
      = .ok { message := some m,
              table := clearTransactionHistory env.defaultTransactionID s.table,
              trace := s.trace ++ [Event.clearTransactionHistory env.defaultTransactionID,
                                   Event.send DCCH 0x61] } := by
  have ha : acquire w DCCH s = (s, .ok m) := by simp [acquire, hs]
  simp [DCCHDispatcherPass, tryBlock, ha, dispatchSwitch_unrouted env w DCCH m s hPD hMM hRR,
    handler, sendRelease, clearHistory, LoopState.emit, hs]

/-- C12: the pass leaves the current message in place unless the `try` block
ended normally, the protocol discriminator was unknown, or an
`UnexpectedMessage` with a frame replaced it.  So for an MM or RR message whose
type is none of those the sub-dispatchers name, once it is the current message
every further pass, whatever the collaborators would deliver, dispatches it
again: `n` passes add `n` times one clear and one release with cause 0x61 to
the trace, with no wait for ESTABLISH and no pull, and the message is still
the current one.  Counted from the pass that pulls it, that is `n + 1` such
passes after one wait and one pull. -/
theorem C12_unsupported_message_redispatched (env : Env) (DCCH : LogicalChannel)
    (m : L3Message)
    (hPD : m.PD = .L3MobilityManagementPD ∨ m.PD = .L3RadioResourcePD)
    (hMM : ∀ r, m = .MM r → r.MTI ≠ .LocationUpdatingRequest ∧
      r.MTI ≠ .IMSIDetachIndication ∧ r.MTI ≠ .CMServiceRequest)
    (hRR : ∀ r, m = .RR r → r.MTI ≠ .PagingResponse ∧
      r.MTI ≠ .AssignmentComplete ∧ r.MTI ≠ .GPRSSuspensionRequest) :
    (∀ (ws : List Collaborators) (s : LoopState), s.message = some m →
      DCCHDispatcher env DCCH ws s
        = .ok { message := some m,
                table := Nat.iterate (clearTransactionHistory env.defaultTransactionID)
                  ws.length s.table,
                trace := s.trace ++ (List.replicate ws.length
                  [Event.clearTransactionHistory env.defaultTransactionID,
                   Event.send DCCH 0x61]).flatten }) ∧
    (∀ (w0 : Collaborators) (ws : List Collaborators) (s0 : LoopState),
      s0.message = none → w0.waitForPrimitive DCCH .ESTABLISH = .ok () →
      w0.getMessage DCCH = .ok m →
      DCCHDispatcher env DCCH (w0 :: ws) s0
        = .ok { message := some m,
                table := Nat.iterate (clearTransactionHistory env.defaultTransactionID)
                  (ws.length + 1) s0.table,
                trace := s0.trace ++ [Event.waitForPrimitive DCCH .ESTABLISH,
                                      Event.getMessage DCCH]
                  ++ (List.replicate (ws.length + 1)
                    [Event.clearTransactionHistory env.defaultTransactionID,
                     Event.send DCCH 0x61]).flatten }) ∧
    (∀ (w : Collaborators) (s s1 s' : LoopState) (m' : L3Message),
      acquire w DCCH s = (s1, .ok m') → DCCHDispatcherPass env w DCCH s = .ok s' →
      s'.message ≠ some m' →
      (tryBlock env w DCCH s).2 = .ok () ∨
      (∃ code, m'.PD = .otherPD code) ∨
      (∃ t frame, (tryBlock env w DCCH s).2
        = .error (.exc (.UnexpectedMessage t (some frame))))) := by
  have held : ∀ (ws : List Collaborators) (s : LoopState), s.message = some m →
      DCCHDispatcher env DCCH ws s
        = .ok { message := some m,
                table := Nat.iterate (clearTransactionHistory env.defaultTransactionID)
                  ws.length s.table,
                trace := s.trace ++ (List.replicate ws.length
                  [Event.clearTransactionHistory env.defaultTransactionID,
                   Event.send DCCH 0x61]).flatten } := by
    intro ws
    induction ws with
    | nil =>
      intro s hs
      obtain ⟨msg, tbl, tr⟩ := s
      simp only at hs
      subst hs
      simp [DCCHDispatcher]
    | cons w ws ih =>
      intro s hs
      simp only [DCCHDispatcher, pass_unrouted_held env w DCCH m s hPD hMM hRR hs]
      rw [ih _ rfl]
      simp [List.replicate_succ, Function.iterate_succ]
  refine ⟨held, ?_, ?_⟩
  · intro w0 ws s0 h0 hw hg
    have hp : DCCHDispatcherPass env w0 DCCH s0
        = .ok { message := some m,
                table := clearTransactionHistory env.defaultTransactionID s0.table,
                trace := s0.trace ++ [Event.waitForPrimitive DCCH .ESTABLISH,
                                      Event.getMessage DCCH,
                                      Event.clearTransactionHistory env.defaultTransactionID,
                                      Event.send DCCH 0x61] } := by
      have ha : acquire w0 DCCH s0
          = ({ message := some m, table := s0.table,
               trace := s0.trace ++ [Event.waitForPrimitive DCCH .ESTABLISH,
                                     Event.getMessage DCCH] }, .ok m) := by
        simp [acquire, h0, hw, hg, LoopState.emit]
      simp [DCCHDispatcherPass, tryBlock, ha,
        dispatchSwitch_unrouted env w0 DCCH m _ hPD hMM hRR,
        handler, sendRelease, clearHistory, LoopState.emit]
    simp only [DCCHDispatcher, hp]
    rw [held ws _ rfl]
    simp [List.replicate_succ, Function.iterate_succ]
  · intro w s s1 s' m' ha hp hne
    have hm1 := acquire_message w DCCH s s1 m' ha
    have key : (m'.PD = .L3MobilityManagementPD ∨ m'.PD = .L3RadioResourcePD) →
        (tryBlock env w DCCH s).2 = .ok () ∨
        (∃ code, m'.PD = .otherPD code) ∨
        (∃ t frame, (tryBlock env w DCCH s).2
          = .error (.exc (.UnexpectedMessage t (some frame)))) := by
      intro hq
      have hk := (dispatchSwitch_keeps_message env w DCCH m' s1 hq).1
      rcases hd : dispatchSwitch env w DCCH m' s1 with ⟨s2, r2⟩
      rw [hd] at hk
      cases r2 with
      | ok u => exact Or.inl (by simp [tryBlock, ha, hd])
      | error e =>
        right; right
        cases e with
        | exc f =>
          simp only [DCCHDispatcherPass, tryBlock, ha, hd, Except.ok.injEq] at hp
          cases hfr : f.mpFrame with
          | none =>
            have := handler_keeps_message env DCCH f s2 hfr
            rw [hp] at this
            exact absurd (by rw [this, hk, hm1]) hne
          | some fr =>
            cases f with
            | UnexpectedMessage t fr0 =>
              simp only [Failure.mpFrame] at hfr
              subst hfr
              exact ⟨t, fr, by simp [tryBlock, ha, hd]⟩
            | _ => simp [Failure.mpFrame] at hfr
        | foreignException c => simp [DCCHDispatcherPass, tryBlock, ha, hd] at hp
        | assertFailed => simp [DCCHDispatcherPass, tryBlock, ha, hd] at hp
    cases hpd : m'.PD with
    | otherPD code => exact Or.inr (Or.inl ⟨code, rfl⟩)
    | L3MobilityManagementPD =>
      have := key (Or.inl hpd)
      simpa [hpd] using this
    | L3RadioResourcePD =>
      have := key (Or.inr hpd)
      simpa [hpd] using this

/-- C12, at a mobility-management message of an unnamed type: the pass that
pulls it and the two passes that follow, in which the channel would deliver a
location-updating request. -/
theorem C12_unsupported_message_redispatched_witness :
    (strangeMessage.PD = .L3MobilityManagementPD ∨ strangeMessage.PD = .L3RadioResourcePD) ∧
    DCCHDispatcher env0 sdcch0
        [deliver strangeMessage (.ok ()), deliver lurMessage (.ok ()),
         deliver lurMessage (.ok ())]
        (LoopState.start [0, 3])
      = .ok { message := some strangeMessage, table := [3],
              trace := [.waitForPrimitive sdcch0 .ESTABLISH, .getMessage sdcch0,
                        .clearTransactionHistory 0, .send sdcch0 0x61,
                        .clearTransactionHistory 0, .send sdcch0 0x61,
                        .clearTransactionHistory 0, .send sdcch0 0x61] } :=
  ⟨Or.inl rfl,
   (C12_unsupported_message_redispatched env0 sdcch0 strangeMessage (Or.inl rfl)
      (by intro r h; cases h; simp) (by intro r h; cases h)).2.1
      (deliver strangeMessage (.ok ()))
      [deliver lurMessage (.ok ()), deliver lurMessage (.ok ())]
      (LoopState.start [0, 3]) rfl rfl rfl⟩

end Control

namespace OpenBTS

/-! ## Shutdown -/

/-- The call made by `shutdownOpenbts` is a kill of the own process with
SIGTERM exactly when the process id equals the number of SIGTERM. -/
theorem shutdownOpenbts_self_iff (SIGTERM getpid : Int) :
    shutdownOpenbts SIGTERM getpid = [{ pid := getpid, sig := SIGTERM }]
      ↔ getpid = SIGTERM := by
  simp only [shutdownOpenbts, List.cons.injEq, KillCall.mk.injEq, and_true]
  constructor
  · intro h
    exact h.2
  · intro h
    exact ⟨h.symm, h⟩

/-- C13: in a process with id 1234, with SIGTERM numbered 15,
`shutdownOpenbts` makes one call of `kill` whose target is process 15 and whose
signal number is 1234: not the kill of process 1234 with signal 15. -/
theorem C13_shutdown_kill_arguments_swapped :
    shutdownOpenbts 15 1234 = [{ pid := 15, sig := 1234 }] ∧
    shutdownOpenbts 15 1234 ≠ [{ pid := 1234, sig := 15 }] := by
  decide

/-! ## The restart loop -/

/-- Signals other than SIGCHLD do not end the inner loop: the forwarded ones are
sent to the child and set `shouldExit`. -/
theorem waitChild_no_SIGCHLD (pid : Int) (mid : List Signum) :
    ∀ (rest : List Signum) (shouldExit : Bool) (tr : List ProcEvent),
      Signum.SIGCHLD ∉ mid →
      waitChild pid (mid ++ rest) shouldExit tr
        = waitChild pid rest (shouldExit || mid.any Signum.isForwarded)
            (tr ++ (mid.filter Signum.isForwarded).map (ProcEvent.kill pid)) := by
  induction mid with
  | nil =>
    intro rest shouldExit tr _
    simp
  | cons sg mid ih =>
    intro rest shouldExit tr h
    have hm : Signum.SIGCHLD ∉ mid := fun hc => h (List.mem_cons_of_mem _ hc)
    cases sg with
    | SIGCHLD => exact absurd (List.mem_cons_self _ _) h
    | SIGTERM =>
      rw [List.cons_append, waitChild, ih rest true _ hm]
      simp [Signum.isForwarded]
    | SIGINT =>
      rw [List.cons_append, waitChild, ih rest true _ hm]
      simp [Signum.isForwarded]
    | SIGKILL =>
      rw [List.cons_append, waitChild, ih rest true _ hm]
      simp [Signum.isForwarded]
    | otherSignal n =>
      rw [List.cons_append, waitChild, ih rest shouldExit _ hm]
      simp [Signum.isForwarded]

/-- While no signal has been forwarded, every SIGCHLD makes the loop fork the
next child: after a prefix with `k` SIGCHLDs the loop has forked `k` more
children and goes on with the forks and signals that are left. -/
theorem forkLoopFrom_restarts (pre : List Signum) :
    ∀ (ps : List Int) (suffix : List Signum) (tr : List ProcEvent),
      (∀ p ∈ ps, 0 < p) → (∀ sg ∈ pre, sg.isForwarded = false) →
      pre.count Signum.SIGCHLD < ps.length →
      forkLoopFrom ps (pre ++ suffix) false tr
        = forkLoopFrom (ps.drop (pre.count Signum.SIGCHLD)) suffix false
            (tr ++ (ps.take (pre.count Signum.SIGCHLD)).map ProcEvent.fork) := by
  induction pre with
  | nil =>
    intro ps suffix tr _ _ _
    simp
  | cons sg pre ih =>
    intro ps suffix tr hpos hpre hlen
    have hpre' : ∀ sg' ∈ pre, sg'.isForwarded = false :=
      fun sg' h' => hpre sg' (List.mem_cons_of_mem _ h')
    cases ps with
    | nil => simp at hlen
    | cons p ps =>
      have hp : 0 < p := hpos p (List.mem_cons_self _ _)
      have hp1 : ¬ p < 0 := by omega
      cases sg with
      | SIGCHLD =>
        have hlen' : pre.count Signum.SIGCHLD < ps.length := by
          simp only [List.count_cons_self, List.length_cons] at hlen
          omega
        have hstep : forkLoopFrom (p :: ps) (Signum.SIGCHLD :: pre ++ suffix) false tr
            = forkLoopFrom ps (pre ++ suffix) false (tr ++ [ProcEvent.fork p]) := by
          simp [forkLoopFrom, waitChild, hp, hp1]
        rw [hstep, ih ps suffix _ (fun q hq => hpos q (List.mem_cons_of_mem _ hq)) hpre' hlen']
        simp [List.count_cons_self]
      | otherSignal n =>
        have hlen' : pre.count Signum.SIGCHLD < (p :: ps).length := by
          simpa [List.count_cons_of_ne] using hlen
        have hstep : forkLoopFrom (p :: ps) (Signum.otherSignal n :: pre ++ suffix) false tr
            = forkLoopFrom (p :: ps) (pre ++ suffix) false tr := by
          simp [forkLoopFrom, waitChild, hp, hp1]
        rw [hstep, ih (p :: ps) suffix tr hpos hpre' hlen']
        simp [List.count_cons_of_ne]
      | SIGTERM => simpa [Signum.isForwarded] using hpre .SIGTERM (List.mem_cons_self _ _)
      | SIGINT => simpa [Signum.isForwarded] using hpre .SIGINT (List.mem_cons_self _ _)
      | SIGKILL => simpa [Signum.isForwarded] using hpre .SIGKILL (List.mem_cons_self _ _)

/-- A return from the loop is a return in a child or after a failed fork. -/
theorem forkLoopFrom_returned (forks : List Int) :
    ∀ (sigs : List Signum) (shouldExit : Bool) (tr : List ProcEvent) (c : ExitStatus),
      (forkLoopFrom forks sigs shouldExit tr).1 = .returned c →
      (c = .EXIT_SUCCESS ∧ ∃ tr', (forkLoopFrom forks sigs shouldExit tr).2
          = tr' ++ [ProcEvent.fork 0, ProcEvent.sigprocmask .SIG_UNBLOCK]) ∨
      (c = .EXIT_FAILURE ∧ ∃ tr' p, p < 0 ∧
        (forkLoopFrom forks sigs shouldExit tr).2 = tr' ++ [ProcEvent.fork p]) := by
  induction forks with
  | nil =>
    intro sigs shouldExit tr c h
    simp [forkLoopFrom] at h
  | cons pid forks ih =>
    intro sigs shouldExit tr c h
    by_cases hn : pid < 0
    · right
      simp only [forkLoopFrom, hn, if_true, LoopEnd.returned.injEq] at h ⊢
      exact ⟨h.symm, tr, pid, hn, rfl⟩
    · by_cases hp : pid > 0
      · simp only [forkLoopFrom, hn, if_false, hp, if_true] at h ⊢
        cases hw : waitChild pid sigs shouldExit (tr ++ [ProcEvent.fork pid]) with
        | exited tr2 => simp [hw] at h
        | blocked tr2 => simp [hw] at h
        | childDied rest se2 tr2 =>
          simp only [hw] at h ⊢
          exact ih rest se2 tr2 c h
      · left
        have h0 : pid = 0 := by omega
        subst h0
        simp only [forkLoopFrom, Int.lt_irrefl, if_false, gt_iff_lt,
          LoopEnd.returned.injEq] at h ⊢
        exact ⟨h.symm, tr, by simp⟩

/-- C14: in the supervising parent (every fork returns a child's pid), for a
sequence of signals that starts with `pre`, free of SIGTERM, SIGINT and
SIGKILL and holding `k` SIGCHLDs: after `pre` the loop has forked `k + 1`
children, one more for each SIGCHLD, has forwarded nothing and is still
supervising.  When `pre` is followed by a SIGTERM, SIGINT or SIGKILL `t`, then
by signals `mid` without SIGCHLD, the loop forwards `t` and every SIGTERM,
SIGINT and SIGKILL of `mid` to the child forked last and keeps waiting for it;
at the SIGCHLD that follows it leaves through `exit(EXIT_SUCCESS)` with no
further fork.
Whatever the fork results and the signals, the function returns EXIT_SUCCESS
only right after a fork that returned 0 and EXIT_FAILURE only right after a
fork that returned a negative value. -/
theorem C14_forkLoop_restarts_and_forwards (ps : List Int) (pre : List Signum)
    (hpos : ∀ p ∈ ps, 0 < p) (hpre : ∀ sg ∈ pre, sg.isForwarded = false)
    (hlen : pre.count Signum.SIGCHLD < ps.length) :
    forkLoop ps pre
      = (.blocked, [ProcEvent.sigprocmask .SIG_BLOCK]
          ++ (ps.take (pre.count Signum.SIGCHLD + 1)).map ProcEvent.fork) ∧
    (∀ (t : Signum) (mid rest : List Signum), t.isForwarded = true →
      Signum.SIGCHLD ∉ mid →
      forkLoop ps (pre ++ t :: (mid ++ Signum.SIGCHLD :: rest))
        = (.exited .EXIT_SUCCESS, [ProcEvent.sigprocmask .SIG_BLOCK]
            ++ (ps.take (pre.count Signum.SIGCHLD + 1)).map ProcEvent.fork
            ++ (t :: mid.filter Signum.isForwarded).map
                 (ProcEvent.kill (ps.getD (pre.count Signum.SIGCHLD) 0)))) ∧
    (∀ (t : Signum) (mid : List Signum), t.isForwarded = true →
      Signum.SIGCHLD ∉ mid →
      forkLoop ps (pre ++ t :: mid)
        = (.blocked, [ProcEvent.sigprocmask .SIG_BLOCK]
            ++ (ps.take (pre.count Signum.SIGCHLD + 1)).map ProcEvent.fork
            ++ (t :: mid.filter Signum.isForwarded).map
                 (ProcEvent.kill (ps.getD (pre.count Signum.SIGCHLD) 0)))) ∧
    (∀ (forks : List Int) (sigs : List Signum) (c : ExitStatus),
      (forkLoop forks sigs).1 = .returned c →
      (c = .EXIT_SUCCESS ∧ ∃ tr', (forkLoop forks sigs).2
          = tr' ++ [ProcEvent.fork 0, ProcEvent.sigprocmask .SIG_UNBLOCK]) ∨
      (c = .EXIT_FAILURE ∧ ∃ tr' p, p < 0 ∧
        (forkLoop forks sigs).2 = tr' ++ [ProcEvent.fork p])) := by
  obtain ⟨q, qs, hq⟩ : ∃ q qs, ps.drop (pre.count Signum.SIGCHLD) = q :: qs := by
    cases hd : ps.drop (pre.count Signum.SIGCHLD) with
    | nil =>
      have := List.drop_eq_nil_iff.mp hd
      omega
    | cons q qs => exact ⟨q, qs, rfl⟩
  have hqpos : 0 < q := by
    apply hpos
    have : q ∈ ps.drop (pre.count Signum.SIGCHLD) := by rw [hq]; exact List.mem_cons_self _ _
    exact List.mem_of_mem_drop this
  have hq1 : ¬ q < 0 := by omega
  have htake : ps.take (pre.count Signum.SIGCHLD + 1)
      = ps.take (pre.count Signum.SIGCHLD) ++ [q] := by
    have h1 := List.take_add ps (pre.count Signum.SIGCHLD) 1
    rw [h1, hq]
    simp
  have hget : ps.getD (pre.count Signum.SIGCHLD) 0 = q := by
    have h2 : ps.getD (pre.count Signum.SIGCHLD) 0
        = (ps.drop (pre.count Signum.SIGCHLD)).getD 0 0 := by
      simp [List.getD_eq_getElem?_getD]
    rw [h2, hq]
    rfl
  refine ⟨?_, ?_, ?_, ?_⟩
  · have h := forkLoopFrom_restarts pre ps [] [ProcEvent.sigprocmask .SIG_BLOCK] hpos hpre hlen
    simp only [List.append_nil] at h
    rw [forkLoop, h, hq, htake]
    simp [forkLoopFrom, waitChild, hqpos, hq1]
  · intro t mid rest ht hmid
    have h := forkLoopFrom_restarts pre ps (t :: (mid ++ Signum.SIGCHLD :: rest))
      [ProcEvent.sigprocmask .SIG_BLOCK] hpos hpre hlen
    rw [forkLoop, h, hq, htake, hget]
    have hw := waitChild_no_SIGCHLD q mid (Signum.SIGCHLD :: rest) true
      ([ProcEvent.sigprocmask .SIG_BLOCK]
        ++ (ps.take (pre.count Signum.SIGCHLD)).map ProcEvent.fork
        ++ [ProcEvent.fork q] ++ [ProcEvent.kill q t]) hmid
    cases t with
    | SIGCHLD => simp [Signum.isForwarded] at ht
    | otherSignal n => simp [Signum.isForwarded] at ht
    | SIGTERM =>
      simp only [forkLoopFrom, hq1, if_false, gt_iff_lt, hqpos, if_true, waitChild]
      rw [hw]
      simp [waitChild]
    | SIGINT =>
      simp only [forkLoopFrom, hq1, if_false, gt_iff_lt, hqpos, if_true, waitChild]
      rw [hw]
      simp [waitChild]
    | SIGKILL =>
      simp only [forkLoopFrom, hq1, if_false, gt_iff_lt, hqpos, if_true, waitChild]
      rw [hw]
      simp [waitChild]
  · intro t mid ht hmid
    have h := forkLoopFrom_restarts pre ps (t :: mid)
      [ProcEvent.sigprocmask .SIG_BLOCK] hpos hpre hlen
    rw [forkLoop, h, hq, htake, hget]
    have hw := waitChild_no_SIGCHLD q mid [] true
      ([ProcEvent.sigprocmask .SIG_BLOCK]
        ++ (ps.take (pre.count Signum.SIGCHLD)).map ProcEvent.fork
        ++ [ProcEvent.fork q] ++ [ProcEvent.kill q t]) hmid
    rw [List.append_nil] at hw
    cases t with
    | SIGCHLD => simp [Signum.isForwarded] at ht
    | otherSignal n => simp [Signum.isForwarded] at ht
    | SIGTERM =>
      simp only [forkLoopFrom, hq1, if_false, gt_iff_lt, hqpos, if_true, waitChild]
      rw [hw]
      simp [waitChild]
    | SIGINT =>
      simp only [forkLoopFrom, hq1, if_false, gt_iff_lt, hqpos, if_true, waitChild]
      rw [hw]
      simp [waitChild]
    | SIGKILL =>
      simp only [forkLoopFrom, hq1, if_false, gt_iff_lt, hqpos, if_true, waitChild]
      rw [hw]
      simp [waitChild]
  · intro forks sigs c h
    exact forkLoopFrom_returned forks sigs false _ c h

/-- C14, at children 10, 11, 12: two crashes restart the child, then SIGINT and
SIGTERM are forwarded to child 12, whose SIGCHLD ends the parent. -/
theorem C14_forkLoop_restarts_and_forwards_witness :
    (∀ p ∈ [(10 : Int), 11, 12], 0 < p) ∧
    (∀ sg ∈ [Signum.SIGCHLD, Signum.SIGCHLD], sg.isForwarded = false) ∧
    forkLoop [10, 11, 12] [.SIGCHLD, .SIGCHLD]
      = (.blocked, [.sigprocmask .SIG_BLOCK, .fork 10, .fork 11, .fork 12]) ∧
    forkLoop [10, 11, 12] [.SIGCHLD, .SIGCHLD, .SIGINT, .SIGTERM, .SIGCHLD, .SIGCHLD]
      = (.exited .EXIT_SUCCESS,
          [.sigprocmask .SIG_BLOCK, .fork 10, .fork 11, .fork 12,
           .kill 12 .SIGINT, .kill 12 .SIGTERM]) :=
  ⟨by decide, by decide,
   (C14_forkLoop_restarts_and_forwards [10, 11, 12] [.SIGCHLD, .SIGCHLD]
      (by decide) (by decide) (by decide)).1,
   (C14_forkLoop_restarts_and_forwards [10, 11, 12] [.SIGCHLD, .SIGCHLD]
      (by decide) (by decide) (by decide)).2.1 .SIGINT [.SIGTERM] [.SIGCHLD] rfl
      (by decide)⟩

/-! ## Timeslot bring-up -/

theorem createSlots_fullDuplex (c : Combination) (n : Nat) :
    ∀ (sCount : Nat) (made : List SlotCall), sCount + n ≤ 8 →
      createSlots c false n sCount made
        = (sCount + n, made ++ (List.range' sCount n).map
            (fun k => { combination := c, trx := 0, timeslot := k })) := by
  induction n with
  | zero =>
    intro sCount made _
    simp [createSlots]
  | succ n ih =>
    intro sCount made h
    have h8 : sCount / 8 = 0 := by omega
    have ha : advance false sCount = sCount + 1 := by
      simp only [advance, Bool.false_eq_true, if_false]
      omega
    rw [createSlots, ha, ih (sCount + 1) _ (by omega), h8]
    simp [List.range'_succ, Nat.add_assoc, Nat.add_comm 1 n]

theorem fillIdle_fullDuplex (d : Nat) :
    ∀ (sCount : Nat) (made : List SlotCall), sCount + d = 8 →
      fillIdle false sCount made
        = (8, made ++ (List.range' sCount d).map
            (fun k => { combination := .Combination0, trx := 0, timeslot := k })) := by
  induction d with
  | zero =>
    intro sCount made h
    rw [fillIdle]
    simp [show ¬ sCount < 8 by omega]
    omega
  | succ d ih =>
    intro sCount made h
    have h8 : sCount / 8 = 0 := by omega
    have ha : advance false sCount = sCount + 1 := by
      simp only [advance, Bool.false_eq_true, if_false]
      omega
    rw [fillIdle]
    simp only [show sCount < 8 by omega, dite_true]
    rw [ha, ih (sCount + 1) _ (by omega), h8]
    simp [List.range'_succ]

/-- C15: in full-duplex mode with `GSM.NumC7s = a`, `GSM.NumC1s = b` and
`a + b ≤ 7`, the bring-up configures timeslots `1..a` as Combination VII,
`a+1..a+b` as Combination I and `a+b+1..7` as Combination 0, in this order: the
timeslots of the calls are 1, 2, ..., 7, each once and increasing; every call
passes transceiver index 0 and a timeslot below 8; and `sCount` ends at 8. -/
theorem C15_full_duplex_slot_layout (a b : Nat) (h : a + b ≤ 7) :
    slotBringUp false (a : Int) (b : Int)
      = (8, (List.range' 1 a).map
              (fun k => { combination := .CombinationVII, trx := 0, timeslot := k })
            ++ (List.range' (1 + a) b).map
              (fun k => { combination := .CombinationI, trx := 0, timeslot := k })
            ++ (List.range' (1 + a + b) (7 - (a + b))).map
              (fun k => { combination := .Combination0, trx := 0, timeslot := k })) ∧
    (slotBringUp false (a : Int) (b : Int)).2.map SlotCall.timeslot = [1, 2, 3, 4, 5, 6, 7] ∧
    (∀ c ∈ (slotBringUp false (a : Int) (b : Int)).2, c.trx = 0 ∧ c.timeslot < 8) := by
  have hrun : slotBringUp false (a : Int) (b : Int)
      = (8, (List.range' 1 a).map
              (fun k => { combination := .CombinationVII, trx := 0, timeslot := k })
            ++ (List.range' (1 + a) b).map
              (fun k => { combination := .CombinationI, trx := 0, timeslot := k })
            ++ (List.range' (1 + a + b) (7 - (a + b))).map
              (fun k => { combination := .Combination0, trx := 0, timeslot := k })) := by
    simp only [slotBringUp, Int.toNat_ofNat, Bool.false_eq_true, if_false]
    rw [createSlots_fullDuplex .CombinationVII a 1 [] (by omega)]
    simp only []
    rw [createSlots_fullDuplex .CombinationI b (1 + a) _ (by omega)]
    simp only []
    rw [fillIdle_fullDuplex (7 - (a + b)) (1 + a + b) _ (by omega)]
    simp
  refine ⟨hrun, ?_, ?_⟩
  · rw [hrun]
    simp only [List.map_append, List.map_map]
    have hid : ∀ (c : Combination) (l : List Nat),
        List.map (SlotCall.timeslot ∘ fun k => { combination := c, trx := 0, timeslot := k }) l
          = l := by
      intro c l
      induction l with
      | nil => rfl
      | cons x xs ih => simp [ih]
    rw [hid, hid, hid, List.range'_append_1, show 1 + a + b = 1 + (b + a) by omega,
      List.range'_append_1, show 7 - (a + b) + (b + a) = 7 by omega]
    rfl
  · rw [hrun]
    intro c hc
    simp only [List.mem_append, List.mem_map, List.mem_range'_1] at hc
    rcases hc with (⟨k, hk, rfl⟩ | ⟨k, hk, rfl⟩) | ⟨k, hk, rfl⟩ <;>
      exact ⟨rfl, by simp only; omega⟩

/-- C15, at two Combination VII slots and three Combination I slots. -/
theorem C15_full_duplex_slot_layout_witness :
    2 + 3 ≤ 7 ∧
    slotBringUp false (2 : Nat) (3 : Nat)
      = (8, [{ combination := .CombinationVII, trx := 0, timeslot := 1 },
             { combination := .CombinationVII, trx := 0, timeslot := 2 },
             { combination := .CombinationI, trx := 0, timeslot := 3 },
             { combination := .CombinationI, trx := 0, timeslot := 4 },
             { combination := .CombinationI, trx := 0, timeslot := 5 },
             { combination := .Combination0, trx := 0, timeslot := 6 },
             { combination := .Combination0, trx := 0, timeslot := 7 }]) :=
  ⟨by decide, (C15_full_duplex_slot_layout 2 3 (by decide)).1⟩

end OpenBTS
